import Mathlib

/-!
Shallow embedding of the order routing, normalization and dispatch engine of
the Multibroker trader (MultiBroker_Router.py, Broker_dhan.py,
Broker_motilal.py), together with proofs settling the frozen claims about it.

Conventions used throughout:
* Python strings are Lean `String`s; `str.lower()/.upper()` are modelled
  character-wise with `Char.toLower/Char.toUpper` (the sources only ever
  normalize ASCII enum tokens, where the two agree with Python).
* Python `a or b` on strings picks the first non-empty string (`pyOr`);
  `.strip()` is `pyStrip` (drop leading/trailing whitespace).
* Python floats coming from the UI are modelled as exact rationals `ℚ`
  (the code only compares them with 0 and forwards them).
* Filesystem and network effects are passed in as explicit parameters:
  the client directories become lookup functions, an HTTP/SDK broker call
  becomes an oracle `payload → Except String α` (`Except.error e` models a
  raised exception whose message is `str(e)`).
-/

namespace MBT

/-- Boolean infix (substring) test on character lists, modelling Python's
`needle in hay` for strings. -/
def charsInfix (needle : List Char) : List Char → Bool
  | [] => needle.isEmpty
  | c :: cs => needle.isPrefixOf (c :: cs) || charsInfix needle cs

/-- Python `needle in hay` on strings. -/
def strContains (hay needle : String) : Bool :=
  charsInfix needle.data hay.data

/-- Python `s.lower()` (character-wise, ASCII). -/
def strLower (s : String) : String :=
  String.mk (s.data.map Char.toLower)

/-- Python `s.upper()` (character-wise, ASCII). -/
def strUpper (s : String) : String :=
  String.mk (s.data.map Char.toUpper)

/-- Python `s.replace(a, b)` for single-character `a`, `b`. -/
def replaceChar (a b : Char) (s : String) : String :=
  String.mk (s.data.map (fun c => if c = a then b else c))

/-- Character map underlying `replace("-", "_")` (named for the proofs). -/
def rpDash (c : Char) : Char :=
  if c = '-' then '_' else c

/-- Drop leading and trailing whitespace from a character list. -/
def stripChars (l : List Char) : List Char :=
  ((l.dropWhile Char.isWhitespace).reverse.dropWhile Char.isWhitespace).reverse

/-- Python `s.strip()`. -/
def pyStrip (s : String) : String :=
  String.mk (stripChars s.data)

/-- Python `a or b` for strings: `b` when `a` is empty (falsy), else `a`. -/
def pyOr (a b : String) : String :=
  if a = "" then b else a

/-- Lookup in a literal Python dict (`d.get(k, dflt)`) modelled as an
association list with distinct keys. -/
def dictGetD (m : List (String × String)) (k dflt : String) : String :=
  match m with
  | [] => dflt
  | (a, b) :: t => if a = k then b else dictGetD t k dflt

/-- Digits-only parse of a character list (`none` when empty or any
non-digit occurs). -/
def digitsToNat : List Char → Option Nat
  | [] => none
  | cs =>
    if cs.all Char.isDigit then
      some (cs.foldl (fun n c => n * 10 + (c.toNat - 48)) 0)
    else
      none

/-- Python `int(s)` on a string: optional sign, decimal digits, surrounding
whitespace allowed; anything else raises, modelled as `none`. (Underscore
digit grouping is not modelled.) -/
def pyInt (s : String) : Option Int :=
  match stripChars s.data with
  | '+' :: rest => (digitsToNat rest).map (fun n => (n : Int))
  | '-' :: rest => (digitsToNat rest).map (fun n => -(n : Int))
  | rest => (digitsToNat rest).map (fun n => (n : Int))

/-- Value of a decimal digit string as a rational scaled into `[0,1)`
(the fractional part of a float literal). -/
def fracValue (cs : List Char) : ℚ :=
  (cs.foldl (fun n c => n * 10 + (c.toNat - 48)) 0 : ℚ) / ((10 : ℚ) ^ cs.length)

/-- Python `float(s)` for plain decimal literals (optional sign, optional
fractional part); exponent forms are not modelled. `none` models a raised
ValueError. -/
def pyFloat (s : String) : Option ℚ :=
  let t := stripChars s.data
  let core := fun (cs : List Char) (sgn : ℚ) =>
    let ip := cs.takeWhile (fun c => c ≠ '.')
    let rest := cs.dropWhile (fun c => c ≠ '.')
    match rest with
    | [] =>
      if ip ≠ [] ∧ ip.all Char.isDigit then
        some (sgn * ((ip.foldl (fun n c => n * 10 + (c.toNat - 48)) 0 : Nat) : ℚ))
      else
        none
    | _ :: fr =>
      if (ip ≠ [] ∨ fr ≠ []) ∧ ip.all Char.isDigit ∧ fr.all Char.isDigit then
        some (sgn * (((ip.foldl (fun n c => n * 10 + (c.toNat - 48)) 0 : Nat) : ℚ) + fracValue fr))
      else
        none
  match t with
  | '+' :: rest => core rest 1
  | '-' :: rest => core rest (-1)
  | rest => core rest 1

/-- Python `int(q)` on a float: truncation toward zero. -/
def pyTrunc (q : ℚ) : Int :=
  if 0 ≤ q then ⌊q⌋ else ⌈q⌉

/-- Last `n` characters of a string (Python `s[-n:]`). -/
def lastN (n : Nat) (s : String) : String :=
  String.mk (s.data.drop (s.data.length - n))

/-- Python `s.zfill(n)`: left-pad with zeros to length `n`. -/
def zfill (n : Nat) (s : String) : String :=
  String.mk (List.replicate (n - s.data.length) '0' ++ s.data)

/-! ### Shared data model

`RouterOrder` is the normalized per-client order row the router builds in
`route_place_orders._build_order` and hands to the broker adapters.
`ClientJson` models the stored client credential file (only the fields the
dispatch paths read). -/

/-- Client credential JSON (fields used by the dispatch paths); a missing
JSON field is the empty string. -/
structure ClientJson where
  userid : String
  client_id : String
  apikey : String
  access_token : String
  name : String
  display_name : String
deriving Repr, DecidableEq

/-- Per-client order row built by `route_place_orders._build_order`. -/
structure RouterOrder where
  client_id : String
  name : String
  broker : String
  action : String
  ordertype : String
  producttype : String
  orderduration : String
  exchange : String
  price : ℚ
  triggerprice : ℚ
  disclosedquantity : Int
  amoorder : String
  qty : Int
  tag : String
  correlation_id : String
  symbol : String
  security_id : String
  symboltoken : String
  stock_symbol : String
deriving Repr, DecidableEq

/-! ### Broker_dhan.py -/

/-- Literal dict inside `Broker_dhan._norm_order_type`. -/
def dhanOrderTypeMap : List (String × String) :=
  [("LIMIT", "LIMIT"), ("LMT", "LIMIT"),
   ("MARKET", "MARKET"), ("MKT", "MARKET"),
   ("STOPLOSS", "STOP_LOSS"), ("STOP_LOSS", "STOP_LOSS"),
   ("STOP_LOSS_LIMIT", "STOP_LOSS"), ("SL", "STOP_LOSS"), ("SL_LIMIT", "STOP_LOSS"),
   ("SLM", "STOP_LOSS_MARKET"), ("SL_M", "STOP_LOSS_MARKET"),
   ("SL_MARKET", "STOP_LOSS_MARKET"), ("STOP_LOSS_MARKET", "STOP_LOSS_MARKET")]

/-- Key normalization step of `_norm_order_type`:
`(s or "").strip().upper().replace("-", "_")`. -/
def dhanOrderTypeKey (s : String) : String :=
  replaceChar '-' '_' (strUpper (pyStrip s))

/-- Broker_dhan `_norm_order_type`: normalize UI/Router variants to Dhan API
enums (`m.get(key, key)`). -/
def _norm_order_type (s : String) : String :=
  let key := dhanOrderTypeKey s
  dictGetD dhanOrderTypeMap key key

/-- Broker_dhan `_needs_price`: LIMIT and STOP_LOSS need a price. -/
def _needs_price (ot : String) : Bool :=
  let n := _norm_order_type ot
  n = "LIMIT" || n = "STOP_LOSS"

/-- Broker_dhan `_needs_trigger`: both SL-limit and SL-market need a
trigger. -/
def _needs_trigger (ot : String) : Bool :=
  let n := _norm_order_type ot
  n = "STOP_LOSS" || n = "STOP_LOSS_MARKET"

/-- Status buckets used by both brokers' `get_orders`. -/
inductive Bucket where
  | pending
  | traded
  | rejected
  | cancelled
  | others
deriving Repr, DecidableEq

/-- Status bucketing in Broker_dhan `get_orders` (the if/elif chain over
`s = str(row["status"]).lower()`). -/
def dhanBucket (status : String) : Bucket :=
  let s := strLower status
  if strContains s "pend" then .pending
  else if strContains s "trade" || s = "executed" then .traded
  else if strContains s "reject" || strContains s "error" then .rejected
  else if strContains s "cancel" then .cancelled
  else .others

/-- Status bucketing in Broker_motilal `get_orders` (the if/elif chain over
`s = (row["status"] or "").lower()`). -/
def moBucket (status : String) : Bucket :=
  let s := strLower status
  if strContains s "confirm" then .pending
  else if strContains s "traded" then .traded
  else if strContains s "rejected" || strContains s "error" then .rejected
  else if strContains s "cancel" then .cancelled
  else .others

/-- Claimed status rule, written from the spec's words: case-insensitive
substring rules pend→pending, trade/executed→traded, reject/error→rejected,
cancel→cancelled, else others. Used to compare the spec's rule with each
broker's actual bucketing. -/
def specStatusBucket (status : String) : Bucket :=
  let s := strLower status
  if strContains s "pend" then .pending
  else if strContains s "trade" || s = "executed" then .traded
  else if strContains s "reject" || strContains s "error" then .rejected
  else if strContains s "cancel" then .cancelled
  else .others

/-- Amended Motilal status rule, written from the corrected wording:
confirm→pending, traded→traded, rejected/error→rejected, cancel→cancelled,
else others (case-insensitive substring matching). -/
def moSpecStatusBucket (status : String) : Bucket :=
  let s := strLower status
  if strContains s "confirm" then .pending
  else if strContains s "traded" then .traded
  else if strContains s "rejected" || strContains s "error" then .rejected
  else if strContains s "cancel" then .cancelled
  else .others

/-- Literal `EXCHANGE_MAP` in Broker_dhan `place_orders`. -/
def EXCHANGE_MAP : List (String × String) :=
  [("NSE", "NSE_EQ"), ("BSE", "BSE_EQ"), ("NSEFO", "NSE_FNO"), ("NSE_FO", "NSE_FNO"),
   ("NSECD", "NSE_CURRENCY"), ("MCX", "MCX_COMM"), ("BSEFO", "BSE_FNO"),
   ("BSECD", "BSE_CURRENCY"), ("NCDEX", "NCDEX")]

/-- Literal `PRODUCT_MAP` in Broker_dhan `place_orders`. -/
def PRODUCT_MAP : List (String × String) :=
  [("INTRADAY", "INTRADAY"), ("MIS", "INTRADAY"), ("DELIVERY", "CNC"), ("CNC", "CNC"),
   ("NORMAL", "MARGIN"), ("NRML", "MARGIN"), ("VALUEPLUS", "INTRADAY"), ("MTF", "MTF")]

/-- Outbound Dhan order payload (`data` dict built in the worker; the
constant fields `amoTime`, `boProfitValue`, `boStopLossValue` are kept). -/
structure DhanPayload where
  dhanClientId : String
  correlationId : String
  transactionType : String
  exchangeSegment : String
  productType : String
  orderType : String
  validity : String
  securityId : String
  quantity : Int
  disclosedQuantity : Int
  price : ℚ
  triggerPrice : ℚ
  afterMarketOrder : Bool
  amoTime : String
  boProfitValue : Int
  boStopLossValue : Int
deriving Repr, DecidableEq

/-- Default correlation id `f"ROUTER{uid[-4:].zfill(4)}"`. -/
def routerCorrId (uid : String) : String :=
  "ROUTER" ++ zfill 4 (lastN 4 uid)

/-- Outcome of one dispatch worker: either the structured
`{"status": "ERROR", "message": msg}` record written on a validation
failure, a missing client/token, or a caught broker exception — or the raw
broker response. -/
inductive WorkerOutcome (α : Type) where
  | errorMsg (msg : String)
  | resp (r : α)
deriving Repr, DecidableEq

/-- Price field of the outgoing Dhan payload:
`price if _needs_price(ordertype) else 0` (with already-normalized
ordertype). -/
def dhanWirePrice (od : RouterOrder) : ℚ :=
  if _needs_price (_norm_order_type od.ordertype) then od.price else 0

/-- Trigger-price field of the outgoing Dhan payload:
`trig if _needs_trigger(ordertype) else 0`. -/
def dhanWireTrigger (od : RouterOrder) : ℚ :=
  if _needs_trigger (_norm_order_type od.ordertype) then od.triggerprice else 0

/-- Payload built by the Dhan worker once validation has passed (body of
Broker_dhan `place_orders._worker` after the checks). -/
def dhanPayloadOf (uid : String) (od : RouterOrder) : DhanPayload :=
  let exchange := strUpper (pyOr od.exchange "NSE")
  let ordertype := _norm_order_type od.ordertype
  let productIn := strUpper od.producttype
  let validity := strUpper (pyOr od.orderduration "DAY")
  { dhanClientId := uid
    correlationId := pyOr od.correlation_id (routerCorrId uid)
    transactionType := strUpper od.action
    exchangeSegment := dictGetD EXCHANGE_MAP exchange exchange
    productType := dictGetD PRODUCT_MAP productIn productIn
    orderType := ordertype
    validity := validity
    securityId := pyStrip od.security_id
    quantity := od.qty
    disclosedQuantity := od.disclosedquantity
    price := dhanWirePrice od
    triggerPrice := dhanWireTrigger od
    afterMarketOrder := pyOr od.amoorder "N" = "Y"
    amoTime := "OPEN"
    boProfitValue := 0
    boStopLossValue := 0 }

/-- Result key rule as worded by the spec: `tag:clientId`, or bare
`clientId` when there is no tag. -/
def specResultKey (tag clientId : String) : String :=
  if tag ≠ "" then tag ++ ":" ++ clientId else clientId

/-- Result key of a Dhan worker:
`key = f"{tag}:{uid}" if tag else uid`. -/
def dhanKey (od : RouterOrder) : String :=
  let uid := pyStrip od.client_id
  if od.tag ≠ "" then od.tag ++ ":" ++ uid else uid

/-- Broker_dhan `place_orders._worker` for one row. `byId` models the
`by_id` index read from the client files; `oracle` models
`requests.post(...)` (`Except.error e` = a raised exception). -/
def dhanWorker {α : Type} (byId : String → Option ClientJson)
    (oracle : DhanPayload → Except String α) (od : RouterOrder) : WorkerOutcome α :=
  let uid := pyStrip od.client_id
  match byId uid with
  | none => .errorMsg "Client JSON not found"
  | some cj =>
    let token := pyStrip (pyOr cj.apikey cj.access_token)
    if token = "" then .errorMsg "Missing access token"
    else
      let ordertype := _norm_order_type od.ordertype
      let security_id := pyStrip od.security_id
      if security_id = "" then .errorMsg "Missing securityId for Dhan"
      else if _needs_price ordertype ∧ od.price ≤ 0 then
        .errorMsg "Order requires price > 0"
      else if _needs_trigger ordertype ∧ od.triggerprice ≤ 0 then
        .errorMsg "Order requires triggerPrice > 0"
      else
        match oracle (dhanPayloadOf uid od) with
        | .ok r => .resp r
        | .error e => .errorMsg e

/-! ### Result-map aggregation

The shared `responses` dict written under a lock by the workers. Python
dict assignment replaces an existing key in place and otherwise appends;
`setKV` models exactly that. The fan-out/fan-in of one thread per row
joined before returning is modelled by folding the worker over the rows:
every row is processed and the function returns only once all are. -/

/-- Python dict assignment `m[k] = v` on an association list. -/
def setKV {V : Type} (m : List (String × V)) (k : String) (v : V) : List (String × V) :=
  match m with
  | [] => [(k, v)]
  | (a, b) :: t => if a = k then (k, v) :: t else (a, b) :: setKV t k v

/-- Python dict lookup `m.get(k)`. -/
def lookupKV {V : Type} (k : String) : List (String × V) → Option V
  | [] => none
  | (a, b) :: t => if a = k then some b else lookupKV k t

/-- Fold of the per-row workers into the shared result dict. A worker that
returns `none` models a thread that died on an uncaught exception before
writing its entry (its key is simply never written). -/
def dispatchFold {ρ σ : Type} (keyOf : ρ → String) (work : ρ → Option σ)
    (rows : List ρ) : List (String × σ) :=
  rows.foldl (fun m r => match work r with
    | some v => setKV m (keyOf r) v
    | none => m) []

/-- Batch result of a broker adapter `place_orders`. -/
structure PlaceResult (α : Type) where
  status : String
  order_responses : List (String × WorkerOutcome α)
deriving Repr, DecidableEq

/-- Broker_dhan `place_orders`: spawn one worker per row, join all, return
the aggregated map (`{"status": "empty"}` on an empty batch). -/
def dhan_place_orders {α : Type} (byId : String → Option ClientJson)
    (oracle : DhanPayload → Except String α) (orders : List RouterOrder) : PlaceResult α :=
  if orders.isEmpty then
    { status := "empty", order_responses := [] }
  else
    { status := "completed"
      order_responses :=
        dispatchFold dhanKey (fun od => some (dhanWorker byId oracle od)) orders }

/-! ### Broker_motilal.py — place_orders -/

/-- Outbound Motilal order payload (dict built in
Broker_motilal `place_orders._worker`; constant fields kept). -/
structure MoPayload where
  clientcode : String
  exchange : String
  symboltoken : Int
  buyorsell : String
  ordertype : String
  producttype : String
  orderduration : String
  price : ℚ
  triggerprice : ℚ
  quantityinlot : Int
  disclosedquantity : Int
  amoorder : String
  algoid : String
  goodtilldate : String
  tag : String
deriving Repr, DecidableEq

/-- Conversion `int(od.get("security_id") or 0)` in the Motilal worker:
an empty string is falsy and yields 0; any other string is parsed by
Python `int`, which raises on non-numeric input (`none`). -/
def moSymboltoken (s : String) : Option Int :=
  if s = "" then some 0 else pyInt s

/-- Payload built by the Motilal worker (dict literal in
Broker_motilal `place_orders._worker`); `tok` is the already-converted
`int(od.get("security_id") or 0)`. -/
def moPayloadOf (uid : String) (tok : Int) (od : RouterOrder) : MoPayload :=
  { clientcode := uid
    exchange := strUpper (pyOr od.exchange "NSE")
    symboltoken := tok
    buyorsell := od.action
    ordertype := od.ordertype
    producttype := od.producttype
    orderduration := od.orderduration
    price := od.price
    triggerprice := od.triggerprice
    quantityinlot := od.qty
    disclosedquantity := od.disclosedquantity
    amoorder := od.amoorder
    algoid := ""
    goodtilldate := ""
    tag := od.tag }

/-- Result key of a Motilal worker: always
`key = f"{od.get('tag') or ''}:{uid}"` (note the unconditional colon). -/
def moKey (od : RouterOrder) : String :=
  od.tag ++ ":" ++ pyStrip od.client_id

/-- Broker_motilal `place_orders._worker` for one row. `hasSession` models
`_ensure_session` succeeding; `oracle` models `sdk.PlaceOrder`. A `none`
result models the worker thread dying on the uncaught `ValueError` from
`int(od.get("security_id") or 0)`, in which case no entry is written. -/
def moWorker {α : Type} (byId : String → Option ClientJson)
    (hasSession : ClientJson → Bool) (oracle : MoPayload → Except String α)
    (od : RouterOrder) : Option (WorkerOutcome α) :=
  let uid := pyStrip od.client_id
  match byId uid with
  | none => some (.errorMsg "Client JSON not found")
  | some cj =>
    if hasSession cj = false then some (.errorMsg "Session not found")
    else
      match moSymboltoken od.security_id with
      | none => none
      | some tok =>
        match oracle (moPayloadOf uid tok od) with
        | .ok r => some (.resp r)
        | .error e => some (.errorMsg e)

/-- Broker_motilal `place_orders`. -/
def mo_place_orders {α : Type} (byId : String → Option ClientJson)
    (hasSession : ClientJson → Bool) (oracle : MoPayload → Except String α)
    (orders : List RouterOrder) : PlaceResult α :=
  if orders.isEmpty then
    { status := "empty", order_responses := [] }
  else
    { status := "completed"
      order_responses := dispatchFold moKey (moWorker byId hasSession oracle) orders }

/-! ### Broker_motilal.py — modify_orders (the modify reconciler) -/

/-- JSON-ish field value appearing in broker snapshots and modify rows. -/
inductive JVal where
  | s (v : String)
  | num (v : ℚ)
  | null
deriving Repr, DecidableEq

/-- Order snapshot (order-details record or order-book row) as a JSON
object. -/
def Snap : Type := List (String × JVal)

/-- Python `snap.get(k)` with `None` default. -/
def snapGet (snap : Snap) (k : String) : JVal :=
  (lookupKV k snap).getD .null

/-- Helper `_num_i` in `modify_orders`: `int(float(str(x).strip()))` with
`None`/empty/parse failure giving the default (`none`). -/
def _num_i (x : JVal) : Option Int :=
  match x with
  | .null => none
  | .num v => some (pyTrunc v)
  | .s v => (pyFloat v).map pyTrunc

/-- Helper `_num_f` in `modify_orders`: `float(str(x).strip())` with
failure as `none`. -/
def _num_f (x : JVal) : Option ℚ :=
  match x with
  | .null => none
  | .num v => some v
  | .s v => pyFloat v

/-- Helper `_pos` in `modify_orders` on an optional number. -/
def pyPosI (x : Option Int) : Bool :=
  match x with
  | some v => 0 < v
  | none => false

/-- Helper `_pos` applied to an optional rational. -/
def pyPosQ (x : Option ℚ) : Bool :=
  match x with
  | some v => 0 < v
  | none => false

/-- Key-normalization shared by `_ui_to_mo` and `_snap_to_mo`:
`(ot or "").strip().upper().replace("-", "_").replace(" ", "_")`. -/
def moTypeKey (s : String) : String :=
  replaceChar ' ' '_' (replaceChar '-' '_' (strUpper (pyStrip s)))

/-- Literal dict inside `modify_orders._ui_to_mo`. -/
def moUiTypeMap : List (String × String) :=
  [("LIMIT", "LIMIT"), ("MARKET", "MARKET"),
   ("STOP_LOSS", "STOPLOSS"), ("STOPLOSS", "STOPLOSS"),
   ("SL_LIMIT", "STOPLOSS"), ("SL", "STOPLOSS"),
   ("STOP_LOSS_MARKET", "SL-M"), ("STOPLOSS_MARKET", "SL-M"), ("SL_MARKET", "SL-M")]

/-- Broker_motilal `modify_orders._ui_to_mo`: UI radio value to MO enum,
empty string meaning NO_CHANGE/unknown. -/
def mo_ui_to_mo (ot : String) : String :=
  dictGetD moUiTypeMap (moTypeKey ot) ""

/-- Broker_motilal `modify_orders._snap_to_mo`: snapshot order-type string
to MO enum. -/
def mo_snap_to_mo (x : JVal) : String :=
  let u := moTypeKey (match x with | .s v => v | _ => "")
  if u = "SL_LIMIT" ∨ u = "SL_L" ∨ u = "STOPLOSS_LIMIT" then "STOPLOSS"
  else if u = "SL_MARKET" ∨ u = "SL_M" ∨ u = "STOPLOSS_MARKET" then "SL-M"
  else if u = "LIMIT" ∨ u = "MARKET" ∨ u = "STOPLOSS" ∨ u = "SL-M" then u
  else ""

/-- Field-name preference lists used by the snapshot extractors. -/
def MO_SNAP_TYPE_KEYS : List String :=
  ["newordertype", "ordertype", "orderType", "OrderType"]

/-- Price field names scanned by `_infer_type_from_snapshot`. -/
def MO_SNAP_PRICE_KEYS : List String :=
  ["newprice", "orderprice", "price", "Price"]

/-- Trigger field names scanned by `_infer_type_from_snapshot`. -/
def MO_SNAP_TRIG_KEYS : List String :=
  ["newtriggerprice", "triggerprice", "triggerPrice", "TrigPrice"]

/-- Timestamp field names scanned by `_extract_last_mod`. -/
def MO_LASTMOD_KEYS : List String :=
  ["lastmodifiedtime", "lastmodifieddatetime", "LastModifiedTime", "LastModifiedDatetime",
   "recordinsertime", "recordinserttime", "RecordInsertTime", "modifydatetime",
   "modificationtime"]

/-- Token field names scanned by `_extract_token`. -/
def MO_TOKEN_KEYS : List String :=
  ["symboltoken", "scripcode", "token", "SymbolToken", "ScripCode"]

/-- Quantity field names scanned by `_extract_orderqty`. -/
def MO_QTY_KEYS : List String :=
  ["orderqty", "quantity", "Quantity", "OrderQty"]

/-- Broker_motilal `modify_orders._infer_type_from_snapshot`. -/
def mo_infer_type_from_snapshot (snap : Snap) : String :=
  match (MO_SNAP_TYPE_KEYS.map (fun k => mo_snap_to_mo (snapGet snap k))).find?
      (fun t => t ≠ "") with
  | some t => t
  | none =>
    let hasP := MO_SNAP_PRICE_KEYS.any (fun k => pyPosQ (_num_f (snapGet snap k)))
    let hasT := MO_SNAP_TRIG_KEYS.any (fun k => pyPosQ (_num_f (snapGet snap k)))
    if hasT ∧ hasP then "STOPLOSS"
    else if hasT ∧ ¬hasP then "SL-M"
    else if hasP ∧ ¬hasT then "LIMIT"
    else "MARKET"

/-- Broker_motilal `modify_orders._extract_last_mod`: first non-empty
string value among the known timestamp fields, FALLING BACK TO the current
IST time string (`now_ist_str()`, passed in as `nowStr`) when none is
found. -/
def _extract_last_mod (nowStr : String) (snap : Snap) : String :=
  match MO_LASTMOD_KEYS.find? (fun k =>
      match snapGet snap k with
      | .s v => pyStrip v ≠ ""
      | _ => false) with
  | some k =>
    match snapGet snap k with
    | .s v => pyStrip v
    | _ => nowStr
  | none => nowStr

/-- String rendering of a JSON value (Python `str(v)`), used by
`_extract_token`. -/
def jvalStr (x : JVal) : String :=
  match x with
  | .s v => v
  | .num v => toString v
  | .null => "None"

/-- Broker_motilal `modify_orders._extract_token`: first token field whose
value is not `None`, `""` or `0`. -/
def _extract_token (snap : Snap) : String :=
  match MO_TOKEN_KEYS.find? (fun k =>
      match snapGet snap k with
      | .null => false
      | .s v => v ≠ ""
      | .num v => v ≠ 0) with
  | some k => jvalStr (snapGet snap k)
  | none => ""

/-- Broker_motilal `modify_orders._extract_orderqty`: first quantity field
parsing to a positive int. -/
def _extract_orderqty (snap : Snap) : Option Int :=
  match MO_QTY_KEYS.find? (fun k => pyPosI (_num_i (snapGet snap k))) with
  | some k => _num_i (snapGet snap k)
  | none => none

/-- Shares→lots step of `modify_orders`:
`lots = int(shares // min_qty) if _pos(shares) else 0` (Python `//` is
floor division). -/
def moSharesToLots (shares min_qty : Int) : Int :=
  if 0 < shares then Int.fdiv shares min_qty else 0

/-- Dhan lot-size scaling applied by the router before dispatch:
`new_q = old_q * max(1, int(minq))`. -/
def dhanLotScale (q minq : Int) : Int :=
  q * max 1 minq

/-- Spec-worded placement conversion shares→lots ("share quantity placed,
converted shares→lots by the instrument's minimum lot size"): the only
shares→lots conversion in the sources is the modify-path floor division. -/
def specSharesToLots (shares min_qty : Int) : Int :=
  moSharesToLots shares min_qty

/-- Spec-worded read-back conversion lots→shares: the only lots→shares
conversion in the sources is multiplication by the minimum lot size. -/
def specLotsToShares (lots min_qty : Int) : Int :=
  dhanLotScale lots min_qty

/-- Incoming modify row sent by the router (`row` in
Broker_motilal `modify_orders`); absent JSON fields are `JVal.null` /
empty strings. -/
structure ModifyRow where
  name : String
  order_id : String
  orderType : String
  validity : String
  price : JVal
  triggerPrice : JVal
  quantity : JVal
deriving Repr, DecidableEq

/-- Outbound Motilal modify payload; `newprice`/`newtriggerprice` are
`none` when the key is omitted from the dict. -/
structure MoModifyPayload where
  clientcode : String
  uniqueorderid : String
  newordertype : String
  neworderduration : String
  newdisclosedquantity : Int
  lastmodifiedtime : String
  newquantityinlot : Int
  newprice : Option ℚ
  newtriggerprice : Option ℚ
deriving Repr, DecidableEq

/-- Per-row outcome of the modify reconciler: either one of the row-scoped
failure messages appended to `messages`, or the payload handed to
`sdk.ModifyOrder`. -/
inductive MoModifyStep where
  | skippedNoOid (name : String)
  | clientNotFound (name oid : String)
  | noSession (name oid : String)
  | cannotDetermineLots (name oid : String) (shares : Int) (token : String) (minQty : Int)
  | typeValidationFailed (name oid msg : String)
  | send (p : MoModifyPayload)
deriving Repr, DecidableEq

/-- Snapshot acquisition in `modify_orders`: prefer `GetOrderDetails`,
fall back to scanning the order book, default to the empty dict `{}`
(an empty details dict is falsy in Python and also falls through). -/
def moSnapOf (fetchDetails fetchBook : String → String → Option Snap)
    (uid oid : String) : Snap :=
  match fetchDetails uid oid with
  | some s => if s.isEmpty then (fetchBook uid oid).getD [] else s
  | none => (fetchBook uid oid).getD []

/-- Broker_motilal `modify_orders`, body of the per-row loop up to the
`sdk.ModifyOrder` call. `nowStr` is the value of `now_ist_str()`;
`loadClient` models `_load_client` (scan of the client files by display
name); `minQtyMap` models `min_qty_map.get` from symbols.db. -/
def mo_modify_row (nowStr : String) (loadClient : String → Option ClientJson)
    (hasSession : ClientJson → Bool)
    (fetchDetails fetchBook : String → String → Option Snap)
    (minQtyMap : String → Option Int) (row : ModifyRow) : MoModifyStep :=
  let name := pyOr (pyStrip row.name) "<unknown>"
  let oid := pyStrip row.order_id
  if oid = "" then .skippedNoOid name
  else
    match loadClient name with
    | none => .clientNotFound name oid
    | some cj =>
      let uid := pyStrip (pyOr cj.userid cj.client_id)
      if uid = "" ∨ hasSession cj = false then .noSession name oid
      else
        let qtySharesIn := _num_i row.quantity
        let snap := moSnapOf fetchDetails fetchBook uid oid
        let token := _extract_token snap
        let min_qty := if token ≠ "" then max 1 ((minQtyMap token).getD 1) else 1
        let shares :=
          if pyPosI qtySharesIn then qtySharesIn.getD 0
          else (_extract_orderqty snap).getD 0
        let lots := moSharesToLots shares min_qty
        let last_mod := _extract_last_mod nowStr snap
        if lots ≤ 0 then .cannotDetermineLots name oid shares token min_qty
        else
          let uiType0 := mo_ui_to_mo row.orderType
          let uiType := if uiType0 = "" then mo_infer_type_from_snapshot snap else uiType0
          let payload : MoModifyPayload :=
            { clientcode := uid
              uniqueorderid := oid
              newordertype := pyOr uiType "MARKET"
              neworderduration := strUpper (pyOr row.validity "DAY")
              newdisclosedquantity := 0
              lastmodifiedtime := last_mod
              newquantityinlot := lots
              newprice := if pyPosQ (_num_f row.price) then _num_f row.price else none
              newtriggerprice :=
                if pyPosQ (_num_f row.triggerPrice) then _num_f row.triggerPrice else none }
          if payload.newordertype = "LIMIT" ∧ payload.newprice = none then
            .typeValidationFailed name oid "LIMIT requires Price > 0"
          else if payload.newordertype = "STOPLOSS" ∧
              (payload.newprice = none ∨ payload.newtriggerprice = none) then
            .typeValidationFailed name oid "STOPLOSS requires Price & Trigger > 0"
          else if payload.newordertype = "SL-M" ∧ payload.newtriggerprice = none then
            .typeValidationFailed name oid "SL-M requires Trigger > 0"
          else
            .send payload

/-! ### MultiBroker_Router.py -/

/-- Router `_safe`: strip, replace spaces with underscores, keep only
alphanumerics, underscore and hyphen (Python `ch.isalnum()`; the sources
feed it ASCII identifiers, where `Char.isAlphanum` agrees). -/
def _safe (s : String) : String :=
  String.mk (((stripChars s.data).map (fun c => if c = ' ' then '_' else c)).filter
    (fun c => c.isAlphanum || c = '_' || c = '-'))

/-- Router `_user_client_path`:
`data/users/<user>/clients/<broker>/<client_id>.json` under `baseDir`. -/
def _user_client_path (baseDir user broker client_id : String) : String :=
  baseDir ++ "/users/" ++ _safe user ++ "/clients/" ++ strLower (_safe broker) ++ "/" ++
    _safe client_id ++ ".json"

/-- Router `_group_path`. -/
def _group_path (baseDir g : String) : String :=
  baseDir ++ "/groups/" ++ _safe g ++ ".json"

/-- Router `_copy_path`. -/
def _copy_path (baseDir setup_id : String) : String :=
  baseDir ++ "/copy_setups/" ++ _safe setup_id ++ ".json"

/-- Entry of the router's `client_index` (userid → broker/name/json). -/
structure ClientInfo where
  broker : String
  json : ClientJson
  name : String
deriving Repr, DecidableEq

/-- Common UI fields of a place request, as extracted by
`route_place_orders` before validation (fields hold the local variables
after the "common UI fields" block: `action`/`ordertype` already
uppercased, numeric fields already converted). Only the non-group
(`groupacc = False`) selection fields are carried; the group path funnels
through the same `_build_order`. -/
structure RouteParams where
  clients : List String
  diffQty : Bool
  qtySelection : String
  quantityinlot : Int
  perClientQty : List (String × Int)
  action : String
  ordertype : String
  producttype : String
  orderduration : String
  price : ℚ
  triggerprice : ℚ
  disclosedquantity : Int
  amoorder : String
  correlation_id : String
  exchange_val : String
  raw_symbol : String
  stock_symbol : String
  security_id : String
  symboltoken : String
deriving Repr, DecidableEq

/-- Request-level validation in `route_place_orders`; an `Except.error`
models the raised `HTTPException(400)` aborting the whole request. -/
def routeValidate (ordertype : String) (price triggerprice : ℚ) : Except String Unit :=
  if ordertype = "LIMIT" ∧ price ≤ 0 then
    .error "Price must be > 0 for LIMIT orders."
  else if strContains ordertype "SL" ∧ triggerprice ≤ 0 then
    .error "Trigger price is required for SL/SL-M orders."
  else
    .ok ()

/-- Expanded row of `route_place_orders`: either a skip marker dict
(`{"_skip": True, "reason": ..., "client_id": ...}`) or a real order. -/
inductive BuiltRow where
  | skip (reason : String) (client_id : String)
  | row (od : RouterOrder)
deriving Repr, DecidableEq

/-- Router `route_place_orders._build_order`. -/
def _build_order (idx : String → Option ClientInfo) (p : RouteParams)
    (client_id : String) (qty : Int) (tag : Option String) : BuiltRow :=
  match idx client_id with
  | none => .skip "client_not_found" client_id
  | some ci =>
    .row
      { client_id := client_id
        name := ci.name
        broker := ci.broker
        action := p.action
        ordertype := p.ordertype
        producttype := p.producttype
        orderduration := p.orderduration
        exchange := p.exchange_val
        price := p.price
        triggerprice := p.triggerprice
        disclosedquantity := p.disclosedquantity
        amoorder := p.amoorder
        qty := qty
        tag := tag.getD ""
        correlation_id := p.correlation_id
        symbol := p.raw_symbol
        security_id := p.security_id
        symboltoken := p.symboltoken
        stock_symbol := p.stock_symbol }

/-- Quantity selection for one client in the non-group path. -/
def clientQty (p : RouteParams) (cid : String) : Int :=
  if p.qtySelection = "auto" then p.quantityinlot
  else if p.diffQty then (lookupKV cid p.perClientQty).getD 0
  else p.quantityinlot

/-- Non-group expansion (`for client_id in clients`). -/
def expandClients (idx : String → Option ClientInfo) (p : RouteParams) : List BuiltRow :=
  p.clients.map (fun cid => _build_order idx p cid (clientQty p cid) none)

/-- Per-broker buckets plus the skipped list of `route_place_orders`. -/
structure RouteBuckets where
  dhan : List RouterOrder
  motilal : List RouterOrder
  skipped : List BuiltRow
deriving Repr, DecidableEq

/-- Bucket-by-broker loop of `route_place_orders` (a skip marker goes to
`skipped`; a row goes to its broker's bucket; a row with an unknown broker
is dropped, which cannot happen for rows built from the client index). -/
def bucketize (rows : List BuiltRow) : RouteBuckets :=
  rows.foldl
    (fun b r =>
      match r with
      | .skip reason cid => { b with skipped := b.skipped ++ [.skip reason cid] }
      | .row od =>
        if od.broker = "dhan" then { b with dhan := b.dhan ++ [od] }
        else if od.broker = "motilal" then { b with motilal := b.motilal ++ [od] }
        else b)
    ⟨[], [], []⟩

/-- Dhan lot-size pass of the router: multiply each Dhan row's qty by
`max(1, min_qty)` for its security id (`minQty` models `_min_qty_for`). -/
def dhanScaleRow (minQty : String → Int) (od : RouterOrder) : RouterOrder :=
  { od with qty := dhanLotScale od.qty (if od.security_id = "" then 1 else minQty od.security_id) }

/-- Response of `route_place_orders`: the `results` dict. A broker key is
absent (`none`) when its bucket was empty. -/
structure RouteResponse (α β : Type) where
  skipped : List BuiltRow
  dhan : Option (PlaceResult α)
  motilal : Option (PlaceResult β)
deriving Repr, DecidableEq

/-- Router `route_place_orders` (non-group path): validate the request
(raising aborts everything), expand per client, bucket by broker, apply
the Dhan lot-size pass, dispatch each non-empty bucket to its adapter. -/
def route_place_orders {α β : Type} (idx : String → Option ClientInfo)
    (minQty : String → Int) (byIdD : String → Option ClientJson)
    (oracleD : DhanPayload → Except String α) (byIdM : String → Option ClientJson)
    (hasSession : ClientJson → Bool) (oracleM : MoPayload → Except String β)
    (p : RouteParams) : Except String (RouteResponse α β) := do
  _ ← routeValidate p.ordertype p.price p.triggerprice
  let bs := bucketize (expandClients idx p)
  let dhanRows := bs.dhan.map (dhanScaleRow minQty)
  pure
    { skipped := bs.skipped
      dhan := if bs.dhan.isEmpty then none else some (dhan_place_orders byIdD oracleD dhanRows)
      motilal :=
        if bs.motilal.isEmpty then none
        else some (mo_place_orders byIdM hasSession oracleM bs.motilal) }

/-! ### Concrete fixtures used by witnesses and counterexamples -/

/-- Stored client C1. -/
def wCJ1 : ClientJson :=
  { userid := "C1", client_id := "", apikey := "tok1", access_token := "", name := "N1",
    display_name := "" }

/-- Stored client C2. -/
def wCJ2 : ClientJson :=
  { userid := "C2", client_id := "", apikey := "tok2", access_token := "", name := "N2",
    display_name := "" }

/-- Client index over the two stored clients. -/
def wById (u : String) : Option ClientJson :=
  if u = "C1" then some wCJ1 else if u = "C2" then some wCJ2 else none

/-- Base order row template for the fixtures. -/
def wBaseRow : RouterOrder :=
  { client_id := "C1", name := "N1", broker := "dhan", action := "BUY", ordertype := "MARKET",
    producttype := "MIS", orderduration := "DAY", exchange := "NSE", price := 0,
    triggerprice := 0, disclosedquantity := 0, amoorder := "N", qty := 5, tag := "",
    correlation_id := "X", symbol := "RELIANCE", security_id := "123", symboltoken := "",
    stock_symbol := "RELIANCE" }

/-- Dhan broker oracle that throws exactly on client C1's payload. -/
def wOracleDThrow (p : DhanPayload) : Except String String :=
  if p.dhanClientId = "C1" then .error "boom" else .ok "OK"

/-- Dhan broker oracle that always succeeds. -/
def wOracleDOk (p : DhanPayload) : Except String String :=
  .ok ("OK" ++ p.dhanClientId)

/-- Motilal broker oracle that always succeeds. -/
def wOracleMOk (p : MoPayload) : Except String String :=
  .ok ("OK" ++ p.clientcode)

/-- Motilal row whose security id does not parse as an integer. -/
def wBadMoRow : RouterOrder :=
  { wBaseRow with broker := "motilal", security_id := "abc" }

/-- Route parameters selecting one unknown client with a MARKET order. -/
def wRouteParams : RouteParams :=
  { clients := ["C9X"], diffQty := false, qtySelection := "manual", quantityinlot := 2,
    perClientQty := [], action := "BUY", ordertype := "MARKET", producttype := "MIS",
    orderduration := "DAY", price := 0, triggerprice := 0, disclosedquantity := 0,
    amoorder := "N", correlation_id := "", exchange_val := "NSE", raw_symbol := "R",
    stock_symbol := "R", security_id := "", symboltoken := "" }

/-- Expected route response for `wRouteParams` with an empty client index. -/
def wRouteRes : RouteResponse String String :=
  { skipped := [.skip "client_not_found" "C9X"], dhan := none, motilal := none }

/-- Modify row with a caller-supplied quantity and no order id problems. -/
def wModRow : ModifyRow :=
  { name := "N1", order_id := "OID1", orderType := "", validity := "DAY", price := .null,
    triggerPrice := .null, quantity := .num 10 }

/-- Client loader finding only display name N1. -/
def wLoadClient (n : String) : Option ClientJson :=
  if n = "N1" then some wCJ1 else none

/-! ## Lemmas about the shared result map and the dispatch fold -/

theorem lookup_setKV_self {V : Type} (m : List (String × V)) (k : String) (v : V) :
    lookupKV k (setKV m k v) = some v := by
  induction m with
  | nil => simp [setKV, lookupKV]
  | cons hd t ih =>
    obtain ⟨a, b⟩ := hd
    by_cases h : a = k
    · simp [setKV, h, lookupKV]
    · simp [setKV, h, lookupKV, ih]

theorem lookup_setKV_ne {V : Type} (m : List (String × V)) (k k' : String) (v : V)
    (h : k' ≠ k) : lookupKV k' (setKV m k v) = lookupKV k' m := by
  induction m with
  | nil =>
    simp only [setKV, lookupKV]
    rw [if_neg (fun hh => h hh.symm)]
  | cons hd t ih =>
    obtain ⟨a, b⟩ := hd
    by_cases ha : a = k
    · subst ha
      simp only [setKV, if_pos rfl, lookupKV]
      rw [if_neg (fun hh => h hh.symm), if_neg (fun hh => h hh.symm)]
    · simp only [setKV, if_neg ha, lookupKV]
      by_cases hk : a = k'
      · simp [hk]
      · simp [hk, ih]

theorem mem_keys_setKV {V : Type} (m : List (String × V)) (k k' : String) (v : V)
    (h : k' ∈ (setKV m k v).map Prod.fst) : k' = k ∨ k' ∈ m.map Prod.fst := by
  induction m with
  | nil =>
    simp only [setKV, List.map_cons, List.map_nil, List.mem_cons, List.not_mem_nil,
      or_false] at h
    exact Or.inl h
  | cons hd t ih =>
    obtain ⟨a, b⟩ := hd
    by_cases ha : a = k
    · subst ha
      simp [setKV] at h ⊢
      tauto
    · simp only [setKV, if_neg ha, List.map_cons, List.mem_cons] at h ⊢
      rcases h with h | h
      · tauto
      · rcases ih h with h | h <;> tauto

theorem length_setKV_notMem {V : Type} (m : List (String × V)) (k : String) (v : V)
    (h : k ∉ m.map Prod.fst) : (setKV m k v).length = m.length + 1 := by
  induction m with
  | nil => simp [setKV]
  | cons hd t ih =>
    obtain ⟨a, b⟩ := hd
    simp only [List.map_cons, List.mem_cons] at h
    push_neg at h
    simp [setKV, Ne.symm h.1, ih h.2]

theorem dispatchAux_lookup_notMem {ρ σ : Type} (keyOf : ρ → String) (work : ρ → Option σ)
    (k : String) : ∀ (rows : List ρ) (m : List (String × σ)),
    (∀ r ∈ rows, keyOf r ≠ k) →
    lookupKV k (rows.foldl (fun m r => match work r with
      | some v => setKV m (keyOf r) v
      | none => m) m) = lookupKV k m := by
  intro rows
  induction rows with
  | nil => intro m _; rfl
  | cons a t ih =>
    intro m hk
    simp only [List.foldl_cons]
    have ha : keyOf a ≠ k := hk a (List.mem_cons_self a t)
    have ht : ∀ r ∈ t, keyOf r ≠ k := fun r hr => hk r (List.mem_cons_of_mem a hr)
    cases hw : work a with
    | none => exact ih m ht
    | some v =>
      exact (ih (setKV m (keyOf a) v) ht).trans
        (lookup_setKV_ne m (keyOf a) k v (fun h => ha h.symm))

theorem dispatchAux_length {ρ σ : Type} (keyOf : ρ → String) (work : ρ → Option σ) :
    ∀ (rows : List ρ) (m : List (String × σ)),
    (∀ r ∈ rows, (work r).isSome) → (rows.map keyOf).Nodup →
    (∀ r ∈ rows, keyOf r ∉ m.map Prod.fst) →
    (rows.foldl (fun m r => match work r with
      | some v => setKV m (keyOf r) v
      | none => m) m).length = m.length + rows.length := by
  intro rows
  induction rows with
  | nil => intro m _ _ _; rfl
  | cons a t ih =>
    intro m hsome hnd hfresh
    simp only [List.foldl_cons]
    cases hw : work a with
    | none =>
      have := hsome a (List.mem_cons_self a t)
      rw [hw] at this
      simp at this
    | some v =>
      simp only [List.map_cons, List.nodup_cons] at hnd
      have hfa : keyOf a ∉ m.map Prod.fst := hfresh a (List.mem_cons_self a t)
      have hlen := length_setKV_notMem m (keyOf a) v hfa
      have hfresh2 : ∀ r ∈ t, keyOf r ∉ (setKV m (keyOf a) v).map Prod.fst := by
        intro r hr hmem
        rcases mem_keys_setKV m (keyOf a) (keyOf r) v hmem with h | h
        · exact hnd.1 (h ▸ List.mem_map_of_mem keyOf hr)
        · exact hfresh r (List.mem_cons_of_mem a hr) h
      have h2 := ih (setKV m (keyOf a) v)
        (fun r hr => hsome r (List.mem_cons_of_mem a hr)) hnd.2 hfresh2
      exact h2.trans (by rw [hlen]; simp only [List.length_cons]; omega)

theorem dispatchAux_lookup {ρ σ : Type} (keyOf : ρ → String) (work : ρ → Option σ) :
    ∀ (rows : List ρ) (m : List (String × σ)) (r : ρ), r ∈ rows →
    (∀ s ∈ rows, (work s).isSome) → (rows.map keyOf).Nodup →
    lookupKV (keyOf r) (rows.foldl (fun m s => match work s with
      | some v => setKV m (keyOf s) v
      | none => m) m) = work r := by
  intro rows
  induction rows with
  | nil => intro m r hr; exact absurd hr (List.not_mem_nil r)
  | cons a t ih =>
    intro m r hr hsome hnd
    simp only [List.map_cons, List.nodup_cons] at hnd
    simp only [List.foldl_cons]
    cases hw : work a with
    | none =>
      have := hsome a (List.mem_cons_self a t)
      rw [hw] at this
      simp at this
    | some v =>
      rcases List.mem_cons.mp hr with h | h
      · subst h
        have hnot : ∀ s ∈ t, keyOf s ≠ keyOf r := by
          intro s hs hcon
          exact hnd.1 (hcon ▸ List.mem_map_of_mem keyOf hs)
        exact ((dispatchAux_lookup_notMem keyOf work (keyOf r) t
          (setKV m (keyOf r) v) hnot).trans (lookup_setKV_self m (keyOf r) v)).trans hw.symm
      · exact ih (setKV m (keyOf a) v) r h
          (fun s hs => hsome s (List.mem_cons_of_mem a hs)) hnd.2

theorem dispatchFold_length {ρ σ : Type} (keyOf : ρ → String) (work : ρ → Option σ)
    (rows : List ρ) (hsome : ∀ r ∈ rows, (work r).isSome)
    (hnd : (rows.map keyOf).Nodup) :
    (dispatchFold keyOf work rows).length = rows.length := by
  have := dispatchAux_length keyOf work rows [] hsome hnd (by simp)
  simpa [dispatchFold] using this

theorem dispatchFold_lookup {ρ σ : Type} (keyOf : ρ → String) (work : ρ → Option σ)
    (rows : List ρ) (r : ρ) (hr : r ∈ rows)
    (hsome : ∀ s ∈ rows, (work s).isSome) (hnd : (rows.map keyOf).Nodup) :
    lookupKV (keyOf r) (dispatchFold keyOf work rows) = work r :=
  dispatchAux_lookup keyOf work rows [] r hr hsome hnd

/-! ## Character and string normalization lemmas -/

theorem char_eq_of_toNat_eq {a b : Char} (h : a.toNat = b.toNat) : a = b := by
  apply Char.ext
  exact UInt32.toNat.inj h

theorem toNat_toUpper (c : Char) :
    c.toUpper.toNat = if 97 ≤ c.toNat ∧ c.toNat ≤ 122 then c.toNat - 32 else c.toNat := by
  unfold Char.toUpper
  by_cases h : 97 ≤ c.toNat ∧ c.toNat ≤ 122
  · rw [if_pos ⟨h.1, h.2⟩, if_pos h]
    have hv : (c.toNat - 32).isValidChar := by
      left
      omega
    rw [Char.ofNat, dif_pos hv]
    rfl
  · rw [if_neg ?hn, if_neg h]
    intro hc
    exact h ⟨hc.1, hc.2⟩

theorem toNat_toLower (c : Char) :
    c.toLower.toNat = if 65 ≤ c.toNat ∧ c.toNat ≤ 90 then c.toNat + 32 else c.toNat := by
  unfold Char.toLower
  by_cases h : 65 ≤ c.toNat ∧ c.toNat ≤ 90
  · rw [if_pos ⟨h.1, h.2⟩, if_pos h]
    have hv : (c.toNat + 32).isValidChar := by
      left
      omega
    rw [Char.ofNat, dif_pos hv]
    rfl
  · rw [if_neg ?hn, if_neg h]
    intro hc
    exact h ⟨hc.1, hc.2⟩

theorem toUpper_toUpper (c : Char) : c.toUpper.toUpper = c.toUpper := by
  apply char_eq_of_toNat_eq
  rw [toNat_toUpper c.toUpper, toNat_toUpper c]
  split_ifs <;> omega

theorem isWhitespace_iff (c : Char) :
    c.isWhitespace = true ↔ (c.toNat = 32 ∨ c.toNat = 9 ∨ c.toNat = 13 ∨ c.toNat = 10) := by
  unfold Char.isWhitespace
  simp only [Bool.or_eq_true, decide_eq_true_eq]
  constructor
  · rintro (((rfl | rfl) | rfl) | rfl) <;> decide
  · rintro (h | h | h | h)
    · exact Or.inl (Or.inl (Or.inl (char_eq_of_toNat_eq (b := ' ') h)))
    · exact Or.inl (Or.inl (Or.inr (char_eq_of_toNat_eq (b := '\t') h)))
    · exact Or.inl (Or.inr (char_eq_of_toNat_eq (b := '\x0d') h))
    · exact Or.inr (char_eq_of_toNat_eq (b := '\n') h)

theorem isWhitespace_toUpper (c : Char) : c.toUpper.isWhitespace = c.isWhitespace := by
  rw [Bool.eq_iff_iff, isWhitespace_iff, isWhitespace_iff, toNat_toUpper]
  split_ifs with h <;> omega

theorem head?_dropWhile {α : Type} (p : α → Bool) :
    ∀ (l : List α) (c : α), (l.dropWhile p).head? = some c → p c = false := by
  intro l
  induction l with
  | nil => intro c h; simp [List.dropWhile] at h
  | cons a t ih =>
    intro c h
    rw [List.dropWhile_cons] at h
    by_cases ha : p a
    · rw [if_pos ha] at h
      exact ih c h
    · rw [if_neg ha] at h
      simp only [List.head?_cons, Option.some.injEq] at h
      subst h
      exact Bool.eq_false_iff.mpr ha

theorem dropWhile_eq_self_of_head {α : Type} (p : α → Bool) (l : List α)
    (h : ∀ c, l.head? = some c → p c = false) : l.dropWhile p = l := by
  cases l with
  | nil => rfl
  | cons a t =>
    rw [List.dropWhile_cons, if_neg]
    rw [h a rfl]
    simp

theorem stripChars_eq_self (l : List Char)
    (h1 : ∀ c, l.head? = some c → c.isWhitespace = false)
    (h2 : ∀ c, l.getLast? = some c → c.isWhitespace = false) : stripChars l = l := by
  unfold stripChars
  rw [dropWhile_eq_self_of_head Char.isWhitespace l h1]
  rw [dropWhile_eq_self_of_head Char.isWhitespace l.reverse
    (fun c hc => h2 c ((List.head?_reverse l) ▸ hc))]
  exact List.reverse_reverse l

theorem getLast?_stripChars (l : List Char) (c : Char)
    (h : (stripChars l).getLast? = some c) : c.isWhitespace = false := by
  unfold stripChars at h
  rw [List.getLast?_reverse] at h
  exact head?_dropWhile Char.isWhitespace _ c h

theorem head?_stripChars (l : List Char) (c : Char)
    (h : (stripChars l).head? = some c) : c.isWhitespace = false := by
  unfold stripChars at h
  rw [List.head?_reverse] at h
  obtain ⟨t, ht⟩ := List.dropWhile_suffix
    (l := (l.dropWhile Char.isWhitespace).reverse) (p := Char.isWhitespace)
  have hne : (l.dropWhile Char.isWhitespace).reverse.dropWhile Char.isWhitespace ≠ [] := by
    intro hcon
    rw [hcon] at h
    simp at h
  have h3 := List.getLast?_append_of_ne_nil t hne
  rw [ht] at h3
  rw [← h3, List.getLast?_reverse] at h
  exact head?_dropWhile Char.isWhitespace l c h

theorem map_eq_self_of {α : Type} (f : α → α) (l : List α) (h : ∀ c ∈ l, f c = c) :
    l.map f = l := by
  induction l with
  | nil => rfl
  | cons a t ih =>
    simp only [List.map_cons, List.cons.injEq]
    exact ⟨h a (List.mem_cons_self a t), ih (fun c hc => h c (List.mem_cons_of_mem a hc))⟩

theorem rpDash_idem (c : Char) : rpDash (rpDash c) = rpDash c := by
  unfold rpDash
  by_cases h : c = '-' <;> simp [h]

theorem isWhitespace_rpDash (c : Char) : (rpDash c).isWhitespace = c.isWhitespace := by
  unfold rpDash
  by_cases h : c = '-' <;> simp [h]

theorem toUpper_rpDash_toUpper (c : Char) :
    (rpDash c.toUpper).toUpper = rpDash c.toUpper := by
  by_cases h : rpDash c.toUpper = '_'
  · rw [h]
    decide
  · have : rpDash c.toUpper = c.toUpper := by
      unfold rpDash at h ⊢
      by_cases hc : c.toUpper = '-'
      · simp [hc] at h
      · simp [hc]
    rw [this]
    exact toUpper_toUpper c

theorem dhanOrderTypeKey_idem (s : String) :
    dhanOrderTypeKey (dhanOrderTypeKey s) = dhanOrderTypeKey s := by
  have hdata : (dhanOrderTypeKey s).data =
      ((stripChars s.data).map Char.toUpper).map rpDash := rfl
  have hedge1 : ∀ c, (((stripChars s.data).map Char.toUpper).map rpDash).head? = some c →
      c.isWhitespace = false := by
    intro c hc
    rw [List.head?_map, List.head?_map] at hc
    rcases Option.map_eq_some'.mp hc with ⟨c1, hc1, rfl⟩
    rcases Option.map_eq_some'.mp hc1 with ⟨c0, hc0, rfl⟩
    rw [isWhitespace_rpDash, isWhitespace_toUpper]
    exact head?_stripChars s.data c0 hc0
  have hedge2 : ∀ c, (((stripChars s.data).map Char.toUpper).map rpDash).getLast? = some c →
      c.isWhitespace = false := by
    intro c hc
    rw [List.getLast?_map, List.getLast?_map] at hc
    rcases Option.map_eq_some'.mp hc with ⟨c1, hc1, rfl⟩
    rcases Option.map_eq_some'.mp hc1 with ⟨c0, hc0, rfl⟩
    rw [isWhitespace_rpDash, isWhitespace_toUpper]
    exact getLast?_stripChars s.data c0 hc0
  have hmemform : ∀ c ∈ ((stripChars s.data).map Char.toUpper).map rpDash,
      ∃ c0 : Char, c = rpDash c0.toUpper := by
    intro c hc
    rcases List.mem_map.mp hc with ⟨c1, hc1, rfl⟩
    rcases List.mem_map.mp hc1 with ⟨c0, _, rfl⟩
    exact ⟨c0, rfl⟩
  have hstrip : stripChars (((stripChars s.data).map Char.toUpper).map rpDash) =
      ((stripChars s.data).map Char.toUpper).map rpDash :=
    stripChars_eq_self _ hedge1 hedge2
  have hup : (((stripChars s.data).map Char.toUpper).map rpDash).map Char.toUpper =
      ((stripChars s.data).map Char.toUpper).map rpDash := by
    apply map_eq_self_of
    intro c hc
    rcases hmemform c hc with ⟨c0, rfl⟩
    exact toUpper_rpDash_toUpper c0
  have hrpk : (((stripChars s.data).map Char.toUpper).map rpDash).map rpDash =
      ((stripChars s.data).map Char.toUpper).map rpDash := by
    apply map_eq_self_of
    intro c hc
    rcases hmemform c hc with ⟨c0, rfl⟩
    exact rpDash_idem c0.toUpper
  have hfinal : ((stripChars (dhanOrderTypeKey s).data).map Char.toUpper).map rpDash =
      (dhanOrderTypeKey s).data := by
    rw [hdata, hstrip, hup, hrpk]
  exact congrArg String.mk hfinal

theorem dictGetD_cases (m : List (String × String)) (k d : String) :
    dictGetD m k d = d ∨ ∃ v, (k, v) ∈ m ∧ dictGetD m k d = v := by
  induction m with
  | nil => exact Or.inl rfl
  | cons hd t ih =>
    obtain ⟨a, b⟩ := hd
    by_cases ha : a = k
    · subst ha
      right
      exact ⟨b, List.mem_cons_self _ _, by simp [dictGetD]⟩
    · simp only [dictGetD, if_neg ha]
      rcases ih with h | ⟨v, hv, h⟩
      · exact Or.inl h
      · exact Or.inr ⟨v, List.mem_cons_of_mem _ hv, h⟩

theorem norm_order_type_idem (s : String) :
    _norm_order_type (_norm_order_type s) = _norm_order_type s := by
  rcases dictGetD_cases dhanOrderTypeMap (dhanOrderTypeKey s) (dhanOrderTypeKey s) with
    h | ⟨v, hv, h⟩
  · have hn : _norm_order_type s = dhanOrderTypeKey s := h
    rw [hn]
    have h2 : _norm_order_type (dhanOrderTypeKey s) =
        dictGetD dhanOrderTypeMap (dhanOrderTypeKey (dhanOrderTypeKey s))
          (dhanOrderTypeKey (dhanOrderTypeKey s)) := rfl
    rw [h2, dhanOrderTypeKey_idem]
    exact h
  · have hn : _norm_order_type s = v := h
    rw [hn]
    have hv2 : v ∈ dhanOrderTypeMap.map Prod.snd := List.mem_map_of_mem Prod.snd hv
    simp only [dhanOrderTypeMap, List.map_cons, List.map_nil, List.mem_cons,
      List.not_mem_nil, or_false] at hv2
    rcases hv2 with rfl | rfl | rfl | rfl | rfl | rfl | rfl | rfl | rfl | rfl | rfl |
      rfl | rfl <;> decide

theorem needs_price_norm (s : String) :
    _needs_price (_norm_order_type s) = _needs_price s := by
  unfold _needs_price
  rw [norm_order_type_idem]

theorem needs_trigger_norm (s : String) :
    _needs_trigger (_norm_order_type s) = _needs_trigger s := by
  unfold _needs_trigger
  rw [norm_order_type_idem]

/-! ## Claim theorems -/

/-- C8: order-type normalization maps every synonym of the same canonical
order type to the same broker enum, case-insensitively and tolerating
hyphenated variants; in particular Stop-Loss / STOPLOSS / SL all map to
STOP_LOSS for Dhan and to STOPLOSS for Motilal. -/
theorem claim8_order_type_synonyms :
    _norm_order_type "Stop-Loss" = "STOP_LOSS" ∧ _norm_order_type "STOPLOSS" = "STOP_LOSS" ∧
    _norm_order_type "SL" = "STOP_LOSS" ∧ _norm_order_type "stop-loss" = "STOP_LOSS" ∧
    _norm_order_type "sl" = "STOP_LOSS" ∧ _norm_order_type "Sl-Limit" = "STOP_LOSS" ∧
    mo_ui_to_mo "Stop-Loss" = "STOPLOSS" ∧ mo_ui_to_mo "STOPLOSS" = "STOPLOSS" ∧
    mo_ui_to_mo "SL" = "STOPLOSS" ∧ mo_ui_to_mo "stop-loss" = "STOPLOSS" ∧
    mo_ui_to_mo "sl" = "STOPLOSS" := by
  decide

/-- C3 counterexample: the spec's substring rules are NOT the rule set of
Motilal's get_orders — a status containing "pend" lands in others, not
pending, on the Motilal side. -/
theorem claim3_counterexample :
    specStatusBucket "PENDING" = Bucket.pending ∧ moBucket "PENDING" = Bucket.others ∧
    Bucket.others ≠ Bucket.pending := by
  decide

/-- C3 amended: Dhan's get_orders bucketing follows exactly the spec's
substring rule set, while Motilal's follows its own rule set
(confirm→pending, traded→traded, rejected/error→rejected,
cancel→cancelled, else others). -/
theorem claim3_status_buckets :
    (∀ s, dhanBucket s = specStatusBucket s) ∧ (∀ s, moBucket s = moSpecStatusBucket s) :=
  ⟨fun _ => rfl, fun _ => rfl⟩

/-- C7 counterexample: the claimed round trip (shares→lots at placement,
then lots→shares at read-back) does not reproduce the share count for
every minimum lot size: 5 shares with lot size 2 come back as 4. -/
theorem claim7_counterexample :
    specLotsToShares (specSharesToLots 5 2) 2 = 4 ∧ (4 : Int) ≠ 5 := by
  decide

/-- C7 amended: the conversion composed in the code's own direction is a
round trip — a lot count scaled to shares by the router's Dhan pass
(multiplication by max(1,min_qty)) and read back through the Motilal
modify path (floor division by the same effective lot size) reproduces the
original lot count; the spec's direction reproduces a share count exactly
when the lot size divides it. -/
theorem claim7_lot_roundtrip :
    (∀ q m : Int, 0 < q → moSharesToLots (dhanLotScale q m) (max 1 m) = q) ∧
    (∀ s m : Int, 0 < s → 1 ≤ m →
      (specLotsToShares (specSharesToLots s m) m = s ↔ m ∣ s)) := by
  constructor
  · intro q m hq
    have hM : (0 : Int) < max 1 m := lt_of_lt_of_le Int.zero_lt_one (le_max_left 1 m)
    unfold moSharesToLots dhanLotScale
    rw [if_pos (mul_pos hq hM)]
    exact Int.mul_fdiv_cancel q (ne_of_gt hM)
  · intro s m hs hm
    have hmax : max 1 m = m := max_eq_right hm
    have hm0 : m ≠ 0 := by omega
    unfold specLotsToShares specSharesToLots dhanLotScale moSharesToLots
    rw [if_pos hs, hmax]
    constructor
    · intro h
      exact ⟨s.fdiv m, h.symm.trans (mul_comm _ _)⟩
    · rintro ⟨c, rfl⟩
      rw [Int.mul_fdiv_cancel_left c hm0]
      ring

/-- C7 witness: round trip at lot count 3, lot size 2; divisible share
count 6 with lot size 2. -/
theorem claim7_witness :
    moSharesToLots (dhanLotScale 3 2) (max 1 2) = 3 ∧
    (specLotsToShares (specSharesToLots 6 2) 2 = 6 ↔ (2 : Int) ∣ 6) :=
  ⟨claim7_lot_roundtrip.1 3 2 (by decide), claim7_lot_roundtrip.2 6 2 (by decide) (by decide)⟩

set_option maxHeartbeats 2000000 in
/-- C5 counterexample: with an empty tag the Motilal adapter records the
result under ":C1" (leading separator), not under the bare client id. -/
theorem claim5_counterexample :
    moKey { wBaseRow with broker := "motilal" } = ":C1" ∧
    lookupKV "C1" ((mo_place_orders wById (fun _ => true) wOracleMOk
      [{ wBaseRow with broker := "motilal" }]).order_responses) = none ∧
    lookupKV ":C1" ((mo_place_orders wById (fun _ => true) wOracleMOk
      [{ wBaseRow with broker := "motilal" }]).order_responses) =
      some (.resp "OKC1") := by
  refine ⟨by decide, by decide, by decide⟩

/-- C5 amended: the Dhan adapter's result key follows the spec's rule
(tag:clientId, bare clientId when no tag); the Motilal adapter always uses
the tag:clientId shape, so an untagged row is keyed ":clientId", which
never equals the spec's bare clientId. -/
theorem claim5_result_keys (od : RouterOrder) :
    dhanKey od = specResultKey od.tag (pyStrip od.client_id) ∧
    moKey od = od.tag ++ ":" ++ pyStrip od.client_id ∧
    (od.tag = "" → moKey od ≠ specResultKey od.tag (pyStrip od.client_id)) := by
  refine ⟨rfl, rfl, ?_⟩
  intro ht hcon
  rw [ht] at hcon
  have hlen := congrArg String.length hcon
  rw [moKey, specResultKey] at hlen
  simp [ht, String.length_append] at hlen
  exact absurd hlen (by decide)

set_option maxHeartbeats 2000000 in
/-- C5 witness: the key shapes at a concrete tagged Dhan row and a
concrete untagged Motilal row. -/
theorem claim5_witness :
    dhanKey { wBaseRow with tag := "T" } =
      specResultKey ({ wBaseRow with tag := "T" } : RouterOrder).tag
        (pyStrip ({ wBaseRow with tag := "T" } : RouterOrder).client_id) ∧
    moKey wBaseRow ≠ specResultKey wBaseRow.tag (pyStrip wBaseRow.client_id) :=
  ⟨(claim5_result_keys { wBaseRow with tag := "T" }).1,
   (claim5_result_keys wBaseRow).2.2 rfl⟩

/-- C9: the outgoing Dhan payload's price is 0 whenever the normalized
order type is not LIMIT or STOP_LOSS, and its triggerPrice is 0 whenever
the normalized order type is not STOP_LOSS or STOP_LOSS_MARKET; any
caller-supplied values for types that do not require them are discarded. -/
theorem claim9_dhan_price_trigger_gating (uid : String) (od : RouterOrder) :
    ((_norm_order_type od.ordertype ≠ "LIMIT" ∧
      _norm_order_type od.ordertype ≠ "STOP_LOSS") → (dhanPayloadOf uid od).price = 0) ∧
    ((_norm_order_type od.ordertype ≠ "STOP_LOSS" ∧
      _norm_order_type od.ordertype ≠ "STOP_LOSS_MARKET") →
      (dhanPayloadOf uid od).triggerPrice = 0) := by
  constructor
  · intro h
    have hproj : (dhanPayloadOf uid od).price = dhanWirePrice od := by
      simp only [dhanPayloadOf]
    have hfalse : _needs_price (_norm_order_type od.ordertype) = false := by
      rw [needs_price_norm]
      unfold _needs_price
      simp [h.1, h.2]
    rw [hproj]
    unfold dhanWirePrice
    rw [hfalse]
    simp
  · intro h
    have hproj : (dhanPayloadOf uid od).triggerPrice = dhanWireTrigger od := by
      simp only [dhanPayloadOf]
    have hfalse : _needs_trigger (_norm_order_type od.ordertype) = false := by
      rw [needs_trigger_norm]
      unfold _needs_trigger
      simp [h.1, h.2]
    rw [hproj]
    unfold dhanWireTrigger
    rw [hfalse]
    simp

/-- C9 witness: a MARKET order with nonzero caller-supplied price and
trigger still goes out with both fields zeroed. -/
theorem claim9_witness :
    (dhanPayloadOf "C1" { wBaseRow with price := 7, triggerprice := 8 }).price = 0 ∧
    (dhanPayloadOf "C1" { wBaseRow with price := 7, triggerprice := 8 }).triggerPrice = 0 :=
  ⟨(claim9_dhan_price_trigger_gating "C1" { wBaseRow with price := 7, triggerprice := 8 }).1
     (by decide),
   (claim9_dhan_price_trigger_gating "C1" { wBaseRow with price := 7, triggerprice := 8 }).2
     (by decide)⟩

theorem mem_safe_char (s : String) (c : Char) (h : c ∈ (_safe s).data) :
    (c.isAlphanum || c = '_' || c = '-') = true := by
  have h2 : c ∈ (((stripChars s.data).map (fun c => if c = ' ' then '_' else c)).filter
      (fun c => c.isAlphanum || c = '_' || c = '-')) := h
  exact (List.mem_filter.mp h2).2

theorem not_mem_safe_of_bad (s : String) (c : Char)
    (hbad : (c.isAlphanum || c = '_' || c = '-') = false) : c ∉ (_safe s).data := by
  intro h
  rw [mem_safe_char s c h] at hbad
  exact Bool.noConfusion hbad

theorem count_safe_slash (s : String) : ((_safe s).data).count '/' = 0 :=
  List.count_eq_zero.mpr (not_mem_safe_of_bad s '/' (by decide))

theorem count_lower_safe_slash (s : String) :
    ((strLower (_safe s)).data).count '/' = 0 := by
  apply List.count_eq_zero.mpr
  intro h
  have h2 : '/' ∈ ((_safe s).data).map Char.toLower := h
  rcases List.mem_map.mp h2 with ⟨c, hc, htl⟩
  have hl := congrArg Char.toNat htl
  rw [toNat_toLower] at hl
  rw [show ('/').toNat = 47 from rfl] at hl
  have hc47 : c.toNat = 47 := by
    by_cases hr : 65 ≤ c.toNat ∧ c.toNat ≤ 90
    · rw [if_pos hr] at hl
      omega
    · rw [if_neg hr] at hl
      exact hl
  have : c = '/' := char_eq_of_toNat_eq hc47
  subst this
  exact not_mem_safe_of_bad s '/' (by decide) hc

/-- C10: the filename sanitizer keeps only alphanumerics, underscore and
hyphen (spaces first become underscores, everything else is dropped), so
the sanitized components contain no path separators or dots, and every
client/group/copy-setup path adds exactly its intended separators to the
base directory. -/
theorem claim10_safe_path_sanitization :
    (∀ s : String, ∀ c ∈ (_safe s).data, (c.isAlphanum || c = '_' || c = '-') = true) ∧
    (∀ s : String, '/' ∉ (_safe s).data ∧ '\\' ∉ (_safe s).data ∧ '.' ∉ (_safe s).data) ∧
    (∀ base u b c : String,
      ((_user_client_path base u b c).data).count '/' = (base.data).count '/' + 5) ∧
    (∀ base g : String, ((_group_path base g).data).count '/' = (base.data).count '/' + 2) ∧
    (∀ base i : String, ((_copy_path base i).data).count '/' = (base.data).count '/' + 2) := by
  refine ⟨mem_safe_char, ?_, ?_, ?_, ?_⟩
  · intro s
    exact ⟨not_mem_safe_of_bad s '/' (by decide), not_mem_safe_of_bad s '\\' (by decide),
      not_mem_safe_of_bad s '.' (by decide)⟩
  · intro base u b c
    show ((base ++ "/users/" ++ _safe u ++ "/clients/" ++ strLower (_safe b) ++ "/" ++
      _safe c ++ ".json").data).count '/' = (base.data).count '/' + 5
    simp only [String.data_append, List.count_append]
    have z1 := count_safe_slash u
    have z2 := count_safe_slash c
    have z3 := count_lower_safe_slash b
    have e1 : List.count '/' ['/', 'u', 's', 'e', 'r', 's', '/'] = 2 := by decide
    have e2 : List.count '/' ['/', 'c', 'l', 'i', 'e', 'n', 't', 's', '/'] = 2 := by decide
    have e3 : List.count '/' ['/'] = 1 := by decide
    have e4 : List.count '/' ['.', 'j', 's', 'o', 'n'] = 0 := by decide
    omega
  · intro base g
    show ((base ++ "/groups/" ++ _safe g ++ ".json").data).count '/' =
      (base.data).count '/' + 2
    simp only [String.data_append, List.count_append]
    have z1 := count_safe_slash g
    have e1 : List.count '/' ['/', 'g', 'r', 'o', 'u', 'p', 's', '/'] = 2 := by decide
    have e2 : List.count '/' ['.', 'j', 's', 'o', 'n'] = 0 := by decide
    omega
  · intro base i
    show ((base ++ "/copy_setups/" ++ _safe i ++ ".json").data).count '/' =
      (base.data).count '/' + 2
    simp only [String.data_append, List.count_append]
    have z1 := count_safe_slash i
    have e1 : List.count '/' ['/', 'c', 'o', 'p', 'y', '_', 's', 'e', 't', 'u', 'p', 's', '/'] = 2 := by decide
    have e2 : List.count '/' ['.', 'j', 's', 'o', 'n'] = 0 := by decide
    omega

/-- C10 witness: the sanitizer and path shape at a concrete hostile
identifier. -/
theorem claim10_witness :
    '/' ∉ (_safe "../../etc passwd").data ∧
    ((_group_path "./data" "../../etc passwd").data).count '/' =
      (("./data" : String).data).count '/' + 2 :=
  ⟨(claim10_safe_path_sanitization.2.1 "../../etc passwd").1,
   claim10_safe_path_sanitization.2.2.2.1 "./data" "../../etc passwd"⟩

theorem moWorker_isSome {α : Type} (byId : String → Option ClientJson)
    (hasSession : ClientJson → Bool) (oracle : MoPayload → Except String α)
    (od : RouterOrder) (hp : (moSymboltoken od.security_id).isSome) :
    (moWorker byId hasSession oracle od).isSome := by
  obtain ⟨tok, htok⟩ := Option.isSome_iff_exists.mp hp
  simp only [moWorker, htok]
  cases hcj : byId (pyStrip od.client_id) with
  | none => simp [hcj]
  | some cj =>
    by_cases hs : hasSession cj = false
    · simp [hcj, hs]
    · simp only [hcj]
      rw [if_neg hs]
      cases oracle (moPayloadOf (pyStrip od.client_id) tok od) <;> simp

theorem dhan_place_orders_responses {α : Type} (byId : String → Option ClientJson)
    (oracle : DhanPayload → Except String α) (orders : List RouterOrder) :
    (dhan_place_orders byId oracle orders).order_responses =
      dispatchFold dhanKey (fun od => some (dhanWorker byId oracle od)) orders := by
  cases orders with
  | nil => rfl
  | cons a t => rfl

theorem mo_place_orders_responses {α : Type} (byId : String → Option ClientJson)
    (hasSession : ClientJson → Bool) (oracle : MoPayload → Except String α)
    (orders : List RouterOrder) :
    (mo_place_orders byId hasSession oracle orders).order_responses =
      dispatchFold moKey (moWorker byId hasSession oracle) orders := by
  cases orders with
  | nil => rfl
  | cons a t => rfl

/-- C1 counterexample: a one-row Motilal batch whose security id is not an
integer yields an empty order_responses map — the row's worker dies on the
uncaught int() conversion before recording anything, so the map does NOT
contain one entry per row. -/
theorem claim1_counterexample :
    [wBadMoRow].length = 1 ∧
    (mo_place_orders wById (fun _ => true) wOracleMOk [wBadMoRow]).order_responses.length
      = 0 := by
  exact ⟨rfl, by decide⟩

/-- C1 amended: provided every Motilal row's security id is empty or parses
as an integer (otherwise that worker dies before writing its entry), both
adapters record exactly one entry per row under the row's own key when
keys are distinct; each recorded value is a function of that row alone
(isolation); a nonempty batch always completes; and a broker call that
throws is caught and recorded as an ERROR value under the row's own key
for both adapters. -/
theorem claim1_dispatch_complete {α β : Type} (byIdD : String → Option ClientJson)
    (oracleD : DhanPayload → Except String α) (ordersD : List RouterOrder)
    (byIdM : String → Option ClientJson) (hasSession : ClientJson → Bool)
    (oracleM : MoPayload → Except String β) (ordersM : List RouterOrder)
    (hndD : (ordersD.map dhanKey).Nodup) (hndM : (ordersM.map moKey).Nodup)
    (hparse : ∀ od ∈ ordersM, (moSymboltoken od.security_id).isSome) :
    (dhan_place_orders byIdD oracleD ordersD).order_responses.length = ordersD.length ∧
    (∀ od ∈ ordersD,
      lookupKV (dhanKey od) (dhan_place_orders byIdD oracleD ordersD).order_responses =
        some (dhanWorker byIdD oracleD od)) ∧
    (ordersD ≠ [] → (dhan_place_orders byIdD oracleD ordersD).status = "completed") ∧
    (mo_place_orders byIdM hasSession oracleM ordersM).order_responses.length =
      ordersM.length ∧
    (∀ od ∈ ordersM,
      lookupKV (moKey od) (mo_place_orders byIdM hasSession oracleM ordersM).order_responses
        = moWorker byIdM hasSession oracleM od) ∧
    (ordersM ≠ [] → (mo_place_orders byIdM hasSession oracleM ordersM).status = "completed") ∧
    (∀ od : RouterOrder, ∀ cj : ClientJson, byIdD (pyStrip od.client_id) = some cj →
      pyStrip (pyOr cj.apikey cj.access_token) ≠ "" → pyStrip od.security_id ≠ "" →
      ¬(_needs_price (_norm_order_type od.ordertype) = true ∧ od.price ≤ 0) →
      ¬(_needs_trigger (_norm_order_type od.ordertype) = true ∧ od.triggerprice ≤ 0) →
      ∀ e, oracleD (dhanPayloadOf (pyStrip od.client_id) od) = .error e →
        dhanWorker byIdD oracleD od = .errorMsg e) ∧
    (∀ od : RouterOrder, ∀ cj : ClientJson, ∀ tok : Int,
      byIdM (pyStrip od.client_id) = some cj → hasSession cj = true →
      moSymboltoken od.security_id = some tok →
      ∀ e, oracleM (moPayloadOf (pyStrip od.client_id) tok od) = .error e →
        moWorker byIdM hasSession oracleM od = some (.errorMsg e)) := by
  refine ⟨?_, ?_, ?_, ?_, ?_, ?_, ?_, ?_⟩
  · rw [dhan_place_orders_responses]
    exact dispatchFold_length dhanKey _ ordersD (fun r _ => rfl) hndD
  · intro od hod
    rw [dhan_place_orders_responses]
    exact dispatchFold_lookup dhanKey _ ordersD od hod (fun r _ => rfl) hndD
  · intro hne
    cases ordersD with
    | nil => exact absurd rfl hne
    | cons a t => rfl
  · rw [mo_place_orders_responses]
    exact dispatchFold_length moKey _ ordersM
      (fun r hr => moWorker_isSome byIdM hasSession oracleM r (hparse r hr)) hndM
  · intro od hod
    rw [mo_place_orders_responses]
    exact dispatchFold_lookup moKey _ ordersM od hod
      (fun r hr => moWorker_isSome byIdM hasSession oracleM r (hparse r hr)) hndM
  · intro hne
    cases ordersM with
    | nil => exact absurd rfl hne
    | cons a t => rfl
  · intro od cj hcj htok hsid hnp hnt e he
    simp only [dhanWorker, hcj]
    rw [if_neg htok, if_neg hsid, if_neg hnp, if_neg hnt, he]
  · intro od cj tok hcj hs htok e he
    simp only [moWorker, hcj, htok]
    rw [if_neg (by simp [hs]), he]

/-- C1 witness: two Dhan rows where the broker call throws on the first,
and two well-formed Motilal rows — every row keeps exactly one entry, the
throwing row's entry is its own ERROR record. -/
theorem claim1_witness :
    (dhan_place_orders wById wOracleDThrow
      [wBaseRow, { wBaseRow with client_id := "C2" }]).order_responses.length =
      [wBaseRow, { wBaseRow with client_id := "C2" }].length ∧
    lookupKV (dhanKey wBaseRow) (dhan_place_orders wById wOracleDThrow
      [wBaseRow, { wBaseRow with client_id := "C2" }]).order_responses =
      some (dhanWorker wById wOracleDThrow wBaseRow) ∧
    (mo_place_orders wById (fun _ => true) wOracleMOk
      [{ wBaseRow with broker := "motilal" },
       { wBaseRow with broker := "motilal", client_id := "C2" }]).order_responses.length =
      [{ wBaseRow with broker := "motilal" },
       { wBaseRow with broker := "motilal", client_id := "C2" }].length :=
  ⟨(claim1_dispatch_complete wById wOracleDThrow
      [wBaseRow, { wBaseRow with client_id := "C2" }] wById (fun _ => true) wOracleMOk
      [{ wBaseRow with broker := "motilal" },
       { wBaseRow with broker := "motilal", client_id := "C2" }]
      (by decide) (by decide) (by decide)).1,
   (claim1_dispatch_complete wById wOracleDThrow
      [wBaseRow, { wBaseRow with client_id := "C2" }] wById (fun _ => true) wOracleMOk
      [{ wBaseRow with broker := "motilal" },
       { wBaseRow with broker := "motilal", client_id := "C2" }]
      (by decide) (by decide) (by decide)).2.1 wBaseRow (by simp),
   (claim1_dispatch_complete wById wOracleDThrow
      [wBaseRow, { wBaseRow with client_id := "C2" }] wById (fun _ => true) wOracleMOk
      [{ wBaseRow with broker := "motilal" },
       { wBaseRow with broker := "motilal", client_id := "C2" }]
      (by decide) (by decide) (by decide)).2.2.2.1⟩

/-- C4 counterexample: a place request with a LIMIT order and price 0 is
rejected by route_place_orders with a raised HTTP 400 — the whole batch is
aborted before any row is dispatched, instead of producing per-row ERROR
results. -/
theorem claim4_counterexample :
    route_place_orders (fun _ => none) (fun _ => 1) wById wOracleDOk wById (fun _ => true)
      wOracleMOk
      { wRouteParams with ordertype := "LIMIT", price := 0, clients := ["C1", "C2"] } =
      Except.error "Price must be > 0 for LIMIT orders." := rfl

/-- C4 amended: inside the Dhan adapter a per-row validation failure (here
a LIMIT-type order with price ≤ 0) is recorded as a structured ERROR for
that row's own key, while every other row's entry is still its own
worker's result — but the router itself raises for the request-level
LIMIT/SL checks (see the counterexample). -/
theorem claim4_row_scoped {α : Type} (byId : String → Option ClientJson)
    (oracle : DhanPayload → Except String α) (orders : List RouterOrder)
    (hnd : (orders.map dhanKey).Nodup) (od : RouterOrder) (hmem : od ∈ orders)
    (cj : ClientJson) (hcj : byId (pyStrip od.client_id) = some cj)
    (htok : pyStrip (pyOr cj.apikey cj.access_token) ≠ "")
    (hsid : pyStrip od.security_id ≠ "")
    (hlim : _needs_price (_norm_order_type od.ordertype) = true) (hp : od.price ≤ 0) :
    lookupKV (dhanKey od) (dhan_place_orders byId oracle orders).order_responses =
      some (.errorMsg "Order requires price > 0") ∧
    (∀ od2 ∈ orders, lookupKV (dhanKey od2)
      (dhan_place_orders byId oracle orders).order_responses =
      some (dhanWorker byId oracle od2)) := by
  constructor
  · rw [dhan_place_orders_responses]
    rw [dispatchFold_lookup dhanKey (fun x => some (dhanWorker byId oracle x)) orders od hmem
      (fun r _ => rfl) hnd]
    have hw : dhanWorker byId oracle od = .errorMsg "Order requires price > 0" := by
      simp only [dhanWorker, hcj]
      rw [if_neg htok, if_neg hsid, if_pos ⟨hlim, hp⟩]
    rw [hw]
  · intro od2 h2
    rw [dhan_place_orders_responses]
    exact dispatchFold_lookup dhanKey (fun x => some (dhanWorker byId oracle x)) orders od2 h2
      (fun r _ => rfl) hnd

/-- C4 witness: a two-row Dhan batch where row 1 fails LIMIT validation —
row 1 gets its ERROR entry, row 2 still gets its own worker result. -/
theorem claim4_witness :
    lookupKV (dhanKey { wBaseRow with ordertype := "LIMIT", price := 0 })
      (dhan_place_orders wById wOracleDOk
        [{ wBaseRow with ordertype := "LIMIT", price := 0 },
         { wBaseRow with client_id := "C2" }]).order_responses =
      some (.errorMsg "Order requires price > 0") ∧
    lookupKV (dhanKey { wBaseRow with client_id := "C2" })
      (dhan_place_orders wById wOracleDOk
        [{ wBaseRow with ordertype := "LIMIT", price := 0 },
         { wBaseRow with client_id := "C2" }]).order_responses =
      some (dhanWorker wById wOracleDOk { wBaseRow with client_id := "C2" }) :=
  ⟨(claim4_row_scoped wById wOracleDOk
      [{ wBaseRow with ordertype := "LIMIT", price := 0 },
       { wBaseRow with client_id := "C2" }]
      (by decide) { wBaseRow with ordertype := "LIMIT", price := 0 } (by simp) wCJ1
      (by decide) (by decide) (by decide) (by decide) (by decide)).1,
   (claim4_row_scoped wById wOracleDOk
      [{ wBaseRow with ordertype := "LIMIT", price := 0 },
       { wBaseRow with client_id := "C2" }]
      (by decide) { wBaseRow with ordertype := "LIMIT", price := 0 } (by simp) wCJ1
      (by decide) (by decide) (by decide) (by decide) (by decide)).2
      { wBaseRow with client_id := "C2" } (by simp)⟩

theorem bucketizeAux_skipped_mono :
    ∀ (rows : List BuiltRow) (b : RouteBuckets) (x : BuiltRow), x ∈ b.skipped →
    x ∈ (rows.foldl (fun b r =>
      match r with
      | .skip reason cid => { b with skipped := b.skipped ++ [BuiltRow.skip reason cid] }
      | .row od =>
        if od.broker = "dhan" then { b with dhan := b.dhan ++ [od] }
        else if od.broker = "motilal" then { b with motilal := b.motilal ++ [od] }
        else b) b).skipped := by
  intro rows
  induction rows with
  | nil => intro b x h; exact h
  | cons a t ih =>
    intro b x h
    simp only [List.foldl_cons]
    apply ih
    cases a with
    | skip reason cid => simp [h]
    | row od =>
      by_cases h1 : od.broker = "dhan"
      · simp [h1, h]
      · by_cases h2 : od.broker = "motilal"
        · simp [h1, h2, h]
        · simp [h1, h2, h]

theorem bucketizeAux_skip_mem :
    ∀ (rows : List BuiltRow) (b : RouteBuckets) (reason cid : String),
    BuiltRow.skip reason cid ∈ rows →
    BuiltRow.skip reason cid ∈ (rows.foldl (fun b r =>
      match r with
      | .skip reason cid => { b with skipped := b.skipped ++ [BuiltRow.skip reason cid] }
      | .row od =>
        if od.broker = "dhan" then { b with dhan := b.dhan ++ [od] }
        else if od.broker = "motilal" then { b with motilal := b.motilal ++ [od] }
        else b) b).skipped := by
  intro rows
  induction rows with
  | nil => intro b reason cid h; exact absurd h (List.not_mem_nil _)
  | cons a t ih =>
    intro b reason cid h
    simp only [List.foldl_cons]
    rcases List.mem_cons.mp h with h | h
    · subst h
      apply bucketizeAux_skipped_mono
      simp
    · exact ih _ reason cid h

theorem bucketizeAux_dhan_from :
    ∀ (rows : List BuiltRow) (b : RouteBuckets) (od : RouterOrder),
    od ∈ (rows.foldl (fun b r =>
      match r with
      | .skip reason cid => { b with skipped := b.skipped ++ [BuiltRow.skip reason cid] }
      | .row od =>
        if od.broker = "dhan" then { b with dhan := b.dhan ++ [od] }
        else if od.broker = "motilal" then { b with motilal := b.motilal ++ [od] }
        else b) b).dhan →
    od ∈ b.dhan ∨ BuiltRow.row od ∈ rows := by
  intro rows
  induction rows with
  | nil => intro b od h; exact Or.inl h
  | cons a t ih =>
    intro b od h
    simp only [List.foldl_cons] at h
    rcases ih _ od h with h2 | h2
    · cases a with
      | skip reason cid =>
        exact Or.inl h2
      | row od2 =>
        dsimp only at h2
        by_cases h1 : od2.broker = "dhan"
        · rw [if_pos h1] at h2
          rcases List.mem_append.mp h2 with h3 | h3
          · exact Or.inl h3
          · simp only [List.mem_singleton] at h3
            subst h3
            exact Or.inr (List.mem_cons_self _ _)
        · by_cases h3 : od2.broker = "motilal"
          · rw [if_neg h1, if_pos h3] at h2
            exact Or.inl h2
          · rw [if_neg h1, if_neg h3] at h2
            exact Or.inl h2
    · exact Or.inr (List.mem_cons_of_mem a h2)

theorem bucketizeAux_mo_from :
    ∀ (rows : List BuiltRow) (b : RouteBuckets) (od : RouterOrder),
    od ∈ (rows.foldl (fun b r =>
      match r with
      | .skip reason cid => { b with skipped := b.skipped ++ [BuiltRow.skip reason cid] }
      | .row od =>
        if od.broker = "dhan" then { b with dhan := b.dhan ++ [od] }
        else if od.broker = "motilal" then { b with motilal := b.motilal ++ [od] }
        else b) b).motilal →
    od ∈ b.motilal ∨ BuiltRow.row od ∈ rows := by
  intro rows
  induction rows with
  | nil => intro b od h; exact Or.inl h
  | cons a t ih =>
    intro b od h
    simp only [List.foldl_cons] at h
    rcases ih _ od h with h2 | h2
    · cases a with
      | skip reason cid =>
        exact Or.inl h2
      | row od2 =>
        dsimp only at h2
        by_cases h1 : od2.broker = "dhan"
        · rw [if_pos h1] at h2
          exact Or.inl h2
        · by_cases h3 : od2.broker = "motilal"
          · rw [if_neg h1, if_pos h3] at h2
            rcases List.mem_append.mp h2 with h4 | h4
            · exact Or.inl h4
            · simp only [List.mem_singleton] at h4
              subst h4
              exact Or.inr (List.mem_cons_self _ _)
          · rw [if_neg h1, if_neg h3] at h2
            exact Or.inl h2
    · exact Or.inr (List.mem_cons_of_mem a h2)

theorem expand_skip_mem (idx : String → Option ClientInfo) (p : RouteParams) (cid : String)
    (hc : cid ∈ p.clients) (hn : idx cid = none) :
    BuiltRow.skip "client_not_found" cid ∈ expandClients idx p := by
  unfold expandClients
  apply List.mem_map.mpr
  refine ⟨cid, hc, ?_⟩
  simp [_build_order, hn]

theorem expand_row_found (idx : String → Option ClientInfo) (p : RouteParams)
    (od : RouterOrder) (h : BuiltRow.row od ∈ expandClients idx p) :
    ∃ ci, idx od.client_id = some ci := by
  unfold expandClients at h
  rcases List.mem_map.mp h with ⟨cid, hcid, hb⟩
  cases hidx : idx cid with
  | none =>
    simp [_build_order, hidx] at hb
  | some ci =>
    simp only [_build_order, hidx] at hb
    injection hb with hb2
    refine ⟨ci, ?_⟩
    rw [← hb2]
    exact hidx

/-- C6: a target client id absent from the client index is expanded to a
skip row with reason client_not_found, which is carried through into the
response's skipped list, and no row for that client id ever reaches either
broker bucket (hence neither adapter's place_orders). -/
theorem claim6_client_not_found {α β : Type} (idx : String → Option ClientInfo)
    (minQty : String → Int) (byIdD : String → Option ClientJson)
    (oracleD : DhanPayload → Except String α) (byIdM : String → Option ClientJson)
    (hasSession : ClientJson → Bool) (oracleM : MoPayload → Except String β)
    (p : RouteParams) (cid : String) (res : RouteResponse α β)
    (hroute : route_place_orders idx minQty byIdD oracleD byIdM hasSession oracleM p =
      Except.ok res)
    (hnf : idx cid = none) (hmem : cid ∈ p.clients) :
    BuiltRow.skip "client_not_found" cid ∈ res.skipped ∧
    (∀ od ∈ (bucketize (expandClients idx p)).dhan.map (dhanScaleRow minQty),
      od.client_id ≠ cid) ∧
    (∀ od ∈ (bucketize (expandClients idx p)).motilal, od.client_id ≠ cid) := by
  have hskipped : res.skipped = (bucketize (expandClients idx p)).skipped := by
    unfold route_place_orders at hroute
    cases hval : routeValidate p.ordertype p.price p.triggerprice with
    | error e =>
      rw [hval] at hroute
      exact absurd hroute (by simp [Bind.bind, Except.bind])
    | ok u =>
      rw [hval] at hroute
      simp only [Bind.bind, Except.bind, pure, Except.pure, Except.ok.injEq] at hroute
      rw [← hroute]
  refine ⟨?_, ?_, ?_⟩
  · rw [hskipped]
    exact bucketizeAux_skip_mem (expandClients idx p) ⟨[], [], []⟩ "client_not_found" cid
      (expand_skip_mem idx p cid hmem hnf)
  · intro od hod
    rcases List.mem_map.mp hod with ⟨od2, hod2, rfl⟩
    have hcl : (dhanScaleRow minQty od2).client_id = od2.client_id := rfl
    rw [hcl]
    rcases bucketizeAux_dhan_from (expandClients idx p) ⟨[], [], []⟩ od2 hod2 with h | h
    · exact absurd h (List.not_mem_nil _)
    · rcases expand_row_found idx p od2 h with ⟨ci, hci⟩
      intro hcon
      rw [hcon, hnf] at hci
      exact Option.noConfusion hci
  · intro od hod
    rcases bucketizeAux_mo_from (expandClients idx p) ⟨[], [], []⟩ od hod with h | h
    · exact absurd h (List.not_mem_nil _)
    · rcases expand_row_found idx p od h with ⟨ci, hci⟩
      intro hcon
      rw [hcon, hnf] at hci
      exact Option.noConfusion hci

/-- C6 witness: routing one unknown client id produces exactly the
skipped entry with reason client_not_found. -/
theorem claim6_witness :
    BuiltRow.skip "client_not_found" "C9X" ∈ wRouteRes.skipped :=
  (claim6_client_not_found (fun _ => none) (fun _ => 1) wById wOracleDOk wById
    (fun _ => true) wOracleMOk wRouteParams "C9X" wRouteRes rfl rfl (by decide)).1

/-- When some known timestamp field of the snapshot holds a string with
non-whitespace content, `_extract_last_mod` returns the stripped value of
such a field (the snapshot-sourced case). -/
theorem extract_last_mod_found (nowStr : String) (snap : Snap)
    (hex : ∃ k ∈ MO_LASTMOD_KEYS, ∃ v : String,
      snapGet snap k = JVal.s v ∧ pyStrip v ≠ "") :
    ∃ k ∈ MO_LASTMOD_KEYS, ∃ v : String, snapGet snap k = JVal.s v ∧
      _extract_last_mod nowStr snap = pyStrip v ∧ pyStrip v ≠ "" := by
  obtain ⟨k0, hk0, v0, hv0, hne0⟩ := hex
  unfold _extract_last_mod
  split
  · rename_i k heq
    have hmem := List.mem_of_find?_eq_some heq
    have hp := List.find?_some heq
    split
    · rename_i v hsv
      rw [hsv] at hp
      simp only [decide_eq_true_eq] at hp
      exact ⟨k, hmem, v, hsv, rfl, hp⟩
    · rename_i harm
      exfalso
      rcases hget : snapGet snap k with v | v | _
      · exact harm v hget
      · rw [hget] at hp
        exact Bool.noConfusion hp
      · rw [hget] at hp
        exact Bool.noConfusion hp
  · rename_i heq
    exfalso
    have hnone := List.find?_eq_none.mp heq k0 hk0
    apply hnone
    rw [hv0]
    simp [hne0]

/-- When no known timestamp field of the snapshot holds a string with
non-whitespace content, `_extract_last_mod` falls back to the current IST
time string (the fabricated case; the empty snapshot in particular). -/
theorem extract_last_mod_fallback (nowStr : String) (snap : Snap)
    (hall : ∀ k ∈ MO_LASTMOD_KEYS, ∀ v : String,
      snapGet snap k = JVal.s v → pyStrip v = "") :
    _extract_last_mod nowStr snap = nowStr := by
  unfold _extract_last_mod
  split
  · rename_i k heq
    have hmem := List.mem_of_find?_eq_some heq
    have hp := List.find?_some heq
    split
    · rename_i v hsv
      rw [hsv] at hp
      simp only [decide_eq_true_eq] at hp
      exact absurd (hall k hmem v hsv) hp
    · rfl
  · rfl

set_option maxHeartbeats 800000 in
/-- Every payload the modify reconciler hands to `sdk.ModifyOrder` echoes
`lastmodifiedtime = _extract_last_mod` of the snapshot fetched for that
payload's client code and order id. -/
theorem mo_modify_send_lastmod (nowStr : String)
    (loadClient : String → Option ClientJson) (hasSession : ClientJson → Bool)
    (fetchD fetchB : String → String → Option Snap) (minQtyMap : String → Option Int)
    (row : ModifyRow) :
    ∀ p, mo_modify_row nowStr loadClient hasSession fetchD fetchB minQtyMap row =
      MoModifyStep.send p →
      p.lastmodifiedtime =
        _extract_last_mod nowStr (moSnapOf fetchD fetchB p.clientcode p.uniqueorderid) := by
  intro p h
  dsimp only [mo_modify_row] at h
  split at h
  · cases h
  · split at h
    · cases h
    · rename_i cj hcj
      split at h
      · cases h
      · generalize hs : moSnapOf fetchD fetchB (pyStrip (pyOr cj.userid cj.client_id))
          (pyStrip row.order_id) = s at h
        repeat' split at h
        all_goals
          first
          | (rw [MoModifyStep.send.injEq] at h
             subst h
             dsimp only
             rw [hs])
          | cases h

/-- C2 counterexample: a modify row with a caller-supplied quantity and no
obtainable snapshot (both fetchers fail) does NOT fail with a
SnapshotUnavailable-style error — a modify payload is sent anyway, with the
lastmodifiedtime echo field fabricated from the current IST time. -/
theorem claim2_counterexample :
    mo_modify_row "2025-01-01 10:00:00" wLoadClient (fun _ => true) (fun _ _ => none)
      (fun _ _ => none) (fun _ => none) wModRow =
      MoModifyStep.send
        { clientcode := "C1", uniqueorderid := "OID1", newordertype := "MARKET",
          neworderduration := "DAY", newdisclosedquantity := 0,
          lastmodifiedtime := "2025-01-01 10:00:00", newquantityinlot := 10,
          newprice := none, newtriggerprice := none } := by
  decide

set_option maxHeartbeats 800000 in
/-- C2 amended: every modify payload handed to `sdk.ModifyOrder` carries
`lastmodifiedtime` equal to `_extract_last_mod` of the fetched snapshot;
that value is the stripped value of one of the nine known timestamp fields
when one holds a string with non-whitespace content (snapshot-sourced),
and the fabricated current IST time string (`now_ist_str()`) when none
does; in particular when neither order details nor an order-book row can
be fetched there is no SnapshotUnavailable-style failure — a payload can
still be sent, and then its echo field is the fabricated current time. -/
theorem claim2_lastmod_sourcing (nowStr : String)
    (loadClient : String → Option ClientJson) (hasSession : ClientJson → Bool)
    (fetchD fetchB : String → String → Option Snap) (minQtyMap : String → Option Int)
    (row : ModifyRow) :
    (∀ p, mo_modify_row nowStr loadClient hasSession fetchD fetchB minQtyMap row =
        MoModifyStep.send p →
      p.lastmodifiedtime =
        _extract_last_mod nowStr (moSnapOf fetchD fetchB p.clientcode p.uniqueorderid)) ∧
    (∀ snap : Snap, (∃ k ∈ MO_LASTMOD_KEYS, ∃ v : String,
        snapGet snap k = JVal.s v ∧ pyStrip v ≠ "") →
      ∃ k ∈ MO_LASTMOD_KEYS, ∃ v : String, snapGet snap k = JVal.s v ∧
        _extract_last_mod nowStr snap = pyStrip v ∧ pyStrip v ≠ "") ∧
    (∀ snap : Snap, (∀ k ∈ MO_LASTMOD_KEYS, ∀ v : String,
        snapGet snap k = JVal.s v → pyStrip v = "") →
      _extract_last_mod nowStr snap = nowStr) ∧
    ((∀ u o, fetchD u o = none) → (∀ u o, fetchB u o = none) →
      ∀ p, mo_modify_row nowStr loadClient hasSession fetchD fetchB minQtyMap row =
        MoModifyStep.send p → p.lastmodifiedtime = nowStr) := by
  refine ⟨mo_modify_send_lastmod nowStr loadClient hasSession fetchD fetchB minQtyMap row,
    fun snap hex => extract_last_mod_found nowStr snap hex,
    fun snap hall => extract_last_mod_fallback nowStr snap hall, ?_⟩
  intro hfd hfb p h
  have hsnap : moSnapOf fetchD fetchB p.clientcode p.uniqueorderid = ([] : Snap) := by
    unfold moSnapOf
    rw [hfd, hfb]
    rfl
  have h2 := mo_modify_send_lastmod nowStr loadClient hasSession fetchD fetchB minQtyMap row p h
  rw [hsnap] at h2
  exact h2.trans rfl

/-- C2 witness: the amended statement at concrete inputs — a no-snapshot
modify row whose payload is sent with the fabricated timestamp, a snapshot
whose recordinsertime sources the echo field, and the empty snapshot
falling back to the current time string. -/
theorem claim2_witness :
    ({ clientcode := "C1", uniqueorderid := "OID1", newordertype := "MARKET",
       neworderduration := "DAY", newdisclosedquantity := 0, lastmodifiedtime := "NOW2",
       newquantityinlot := 10, newprice := none, newtriggerprice := none } :
       MoModifyPayload).lastmodifiedtime = "NOW2" ∧
    (∃ k ∈ MO_LASTMOD_KEYS, ∃ v : String,
      snapGet [("recordinsertime", JVal.s " T1 ")] k = JVal.s v ∧
      _extract_last_mod "NOW2" [("recordinsertime", JVal.s " T1 ")] = pyStrip v ∧
      pyStrip v ≠ "") ∧
    _extract_last_mod "NOW2" [] = "NOW2" := by
  refine ⟨?_, ?_, ?_⟩
  · exact (claim2_lastmod_sourcing "NOW2" wLoadClient (fun _ => true) (fun _ _ => none)
      (fun _ _ => none) (fun _ => none) wModRow).2.2.2 (fun _ _ => rfl) (fun _ _ => rfl)
      _ (by decide)
  · exact (claim2_lastmod_sourcing "NOW2" wLoadClient (fun _ => true) (fun _ _ => none)
      (fun _ _ => none) (fun _ => none) wModRow).2.1 _
      ⟨"recordinsertime", by decide, " T1 ", by decide, by decide⟩
  · exact (claim2_lastmod_sourcing "NOW2" wLoadClient (fun _ => true) (fun _ _ => none)
      (fun _ _ => none) (fun _ => none) wModRow).2.2.1 []
      (fun _ _ _ hv => JVal.noConfusion hv)

end MBT
